import Mathlib

/-!
# SynergyBlood: proximity matching and the lifecycle of requests

A shallow embedding of the distance computation, the request feed, the origin and the
dismissal of `src/screens/NotificationScreen.jsx`, the hospital searches of
`src/screens/DonateBloodScreen.jsx` and `src/screens/DonateBloodScreen.web.jsx`, and the
creation of a request of `src/screens/RequestBloodScreen.jsx`.

The store. The records under `notifications` are a list of keys and records; `set`, `update`
and `push` of firebase/database are modelled by `storeSet`, `storeUpdate` and a key that the
store does not hold. An error of the store is an input of the functions that write.

Numbers. A JavaScript number is modelled by a real number, `Math.sin`, `Math.cos`,
`Math.sqrt` by the real functions, and `NaN` by `none` of `Option ℝ`. Rounding and the
infinities of IEEE doubles are outside the model: the theorems about `getDistance` are
theorems of exact arithmetic.

Where rounding changes the outcome. In exact arithmetic the constant `a` of getDistance lies
in `[0, 1]` and is 1 at antipodal points. The doubles of the program can round it to the next
double above 1, where `Math.sqrt(1 - a)` is NaN and getDistance returns NaN. The function
`getDistance` of this file cannot show this. The last line of getDistance is therefore also
modelled as a function of the computed value of `a`, `NotificationScreen.distanceOfTerm`, with
the NaN of `Math.sqrt`, and the statements about the sign and the bound of the result of the
program are made on it.
-/

namespace SynergyBlood

/-! ## Definitions -/

/-- Math.atan2 on real arguments, by the quadrant of `(x, y)`; `atan2 0 0 = 0` as in JavaScript. -/
noncomputable def atan2 (y x : ℝ) : ℝ :=
  if 0 < x then Real.arctan (y / x)
  else if x < 0 then
    (if 0 ≤ y then Real.arctan (y / x) + Real.pi else Real.arctan (y / x) - Real.pi)
  else if 0 < y then Real.pi / 2
  else if y < 0 then -(Real.pi / 2)
  else 0

namespace Math

/-- Math.sqrt with its NaN: the real square root of a number that is not negative, and NaN,
`none`, of a negative number. -/
noncomputable def sqrt (x : ℝ) : Option ℝ :=
  if x < 0 then none else some (Real.sqrt x)

end Math

namespace NotificationScreen

/-- The function getDistance of NotificationScreen.jsx (lines 35-45), in exact arithmetic.
`Math.sqrt` is the real square root: in exact arithmetic both radicands lie in `[0, 1]` for
all inputs (`haversine_term_nonneg`, `haversine_term_le_one`), where `Math.sqrt` is defined.
The doubles of the program differ at antipodal points, where the exact `a` is 1: there the
computed `a` can be the next double above 1, `Math.sqrt(1 - a)` is NaN and the program returns
NaN, while this function returns π · 6371. See `distanceOfTerm`. -/
noncomputable def getDistance (lat1 lon1 lat2 lon2 : ℝ) : ℝ :=
  let R : ℝ := 6371
  let dLat := ((lat2 - lat1) * Real.pi) / 180
  let dLon := ((lon2 - lon1) * Real.pi) / 180
  let a :=
    Real.sin (dLat / 2) ^ 2 +
      Real.cos ((lat1 * Real.pi) / 180) *
        Real.cos ((lat2 * Real.pi) / 180) *
        Real.sin (dLon / 2) ^ 2
  R * (2 * atan2 (Real.sqrt a) (Real.sqrt (1 - a)))

/-- The value of the constant `a` of getDistance (lines 39-43), the haversine term of the two
points, in exact arithmetic. The double that the program computes is this number up to
rounding, and can exceed 1 where this number is 1. -/
noncomputable def haversineTerm (lat1 lon1 lat2 lon2 : ℝ) : ℝ :=
  let dLat := ((lat2 - lat1) * Real.pi) / 180
  let dLon := ((lon2 - lon1) * Real.pi) / 180
  Real.sin (dLat / 2) ^ 2 +
    Real.cos ((lat1 * Real.pi) / 180) *
      Real.cos ((lat2 * Real.pi) / 180) *
      Real.sin (dLon / 2) ^ 2

/-- Line 44 of getDistance, `R * (2 * Math.atan2(Math.sqrt(a), Math.sqrt(1 - a)))`, as a
function of the value of the constant `a`, with the NaN of `Math.sqrt`: `Math.atan2` of a NaN
is NaN, and a product with a NaN is NaN. On the exact term of two points this is getDistance
(`distanceOfTerm_haversineTerm`). It is stated apart for the values of `a` that the doubles of
lines 39-43 reach and the exact term does not. The last lines of the two other copies
(DonateBloodScreen.jsx line 36, DonateBloodScreen.web.jsx line 34) differ in the association
of the product only. -/
noncomputable def distanceOfTerm (a : ℝ) : Option ℝ :=
  match Math.sqrt a, Math.sqrt (1 - a) with
  | some y, some x => some (6371 * (2 * atan2 y x))
  | _, _ => none

end NotificationScreen

namespace DonateBloodScreen

/-- The function getDistance of DonateBloodScreen.jsx (lines 27-37), in exact arithmetic, as
the copy of NotificationScreen.jsx: where the double `a` of the program exceeds 1 the program
returns NaN and this function does not. -/
noncomputable def getDistance (lat1 lon1 lat2 lon2 : ℝ) : ℝ :=
  let R : ℝ := 6371
  let dLat := ((lat2 - lat1) * Real.pi) / 180
  let dLon := ((lon2 - lon1) * Real.pi) / 180
  let a :=
    Real.sin (dLat / 2) ^ 2 +
      Real.cos ((lat1 * Real.pi) / 180) *
        Real.cos ((lat2 * Real.pi) / 180) *
        Real.sin (dLon / 2) ^ 2
  R * 2 * atan2 (Real.sqrt a) (Real.sqrt (1 - a))

end DonateBloodScreen

namespace DonateBloodScreenWeb

/-- The function getDistance of DonateBloodScreen.web.jsx (lines 24-35), in exact arithmetic,
as the copy of NotificationScreen.jsx: where the double `a` of the program exceeds 1 the
program returns NaN and this function does not. -/
noncomputable def getDistance (lat1 lon1 lat2 lon2 : ℝ) : ℝ :=
  let R : ℝ := 6371
  let dLat := ((lat2 - lat1) * Real.pi) / 180
  let dLon := ((lon2 - lon1) * Real.pi) / 180
  let a :=
    Real.sin (dLat / 2) * Real.sin (dLat / 2) +
      Real.cos ((lat1 * Real.pi) / 180) *
        Real.cos ((lat2 * Real.pi) / 180) *
        Real.sin (dLon / 2) *
        Real.sin (dLon / 2)
  R * 2 * atan2 (Real.sqrt a) (Real.sqrt (1 - a))

end DonateBloodScreenWeb

namespace Spec

/-- The conversion of degrees to radians of the specification. -/
noncomputable def radians (deg : ℝ) : ℝ := deg * Real.pi / 180

/-- The distance of the specification (section 4.1, DistanceCalculator), in its words: the
haversine great-circle distance with the Earth radius R = 6371 km, from the point
`(aLat, aLon)` to the point `(bLat, bLon)`, both in degrees. -/
noncomputable def distanceKm (aLat aLon bLat bLon : ℝ) : ℝ :=
  let R : ℝ := 6371
  let dLat := radians (bLat - aLat)
  let dLon := radians (bLon - aLon)
  let h := Real.sin (dLat / 2) ^ 2 +
    Real.cos (radians aLat) * Real.cos (radians bLat) * Real.sin (dLon / 2) ^ 2
  R * 2 * atan2 (Real.sqrt h) (Real.sqrt (1 - h))

end Spec

/-! ### Records of the request feed -/

/-- JavaScript truthiness of a string field that may be missing: a non-empty string is truthy,
the empty string and `undefined` are falsy. -/
def truthy : Option String → Bool
  | some s => s != ""
  | none => false

/-- A coordinate pair as the screens read it. Each component stands for the number that
`parseFloat` returns on the stored component: `some x` for the number `x`, `none` for NaN
(the component is missing or is no numeric text). -/
structure Coords where
  latitude : Option ℝ
  longitude : Option ℝ

/-- A record under `notifications/` of the store, with the fields that the screens write
(RequestBloodScreen.jsx lines 123-139, NotificationScreen.jsx lines 145-149). A field that
some record lacks is `none`. -/
structure Request where
  title : Option String
  requesterId : Option String
  requesterName : Option String
  requesterBloodGroup : Option String
  requesterAge : Option String
  requesterGender : Option String
  requesterAvailability : Option Bool
  hospitalName : Option String
  hospitalLocation : Option String
  requesterCoords : Option Coords
  status : Option String
  timestamp : Option Nat
  notificationId : Option String
  dismissedAt : Option Nat
  dismissedBy : Option String

/-- An element of the `notifications` state: the object that the subscription callback builds
from the key and the record under it (line 55). The records of the store have no field `id` of
their own, so `id` is the key. -/
structure Notif extends Request where
  id : String

/-- An item of the feed: the object pushed by the reduce callback, the notification and
its distance. -/
structure FeedItem extends Notif where
  _distanceKm : ℝ

/-- The value of a snapshot of `notifications`: `none` when `snap.exists()` is false, otherwise
the entries of `snap.val()` in the order of `Object.entries`. -/
abbrev Snapshot := Option (List (String × Request))

/-- The state of NotificationScreen that the feed reads (lines 28-30). -/
structure ScreenState where
  notifications : List Notif
  userCoords : Option Coords
  loading : Bool

namespace NotificationScreen

/-- The state of the screen at its first render (lines 28-30). -/
def initialState : ScreenState :=
  { notifications := [], userCoords := none, loading := true }

/-- The subscription callback (lines 51-62), as a transformer of the screen state. -/
def callback (mounted : Bool) (snap : Snapshot) (st : ScreenState) : ScreenState :=
  if !mounted then st
  else
    match snap with
    | some val =>
      let list : List Notif := val.map (fun e => { toRequest := e.2, id := e.1 })
      let activeNotifications := list.filter (fun n => n.status == some "active")
      { st with notifications := activeNotifications, loading := false }
    | none => { st with notifications := [], loading := false }

/-- The function passed to `reduce` in the computation of nearbyNotifs (lines 175-189). -/
noncomputable def reducer (userCoords : Coords) (uid : Option String)
    (acc : List FeedItem) (n : Notif) : List FeedItem :=
  match n.requesterCoords with
  | none => acc
  | some requesterCoords =>
    if truthy n.status && n.status != some "active" then acc
    else if truthy n.requesterId && truthy uid && n.requesterId == uid then acc
    else
      match userCoords.latitude, userCoords.longitude,
          requesterCoords.latitude, requesterCoords.longitude with
      | some lat1, some lon1, some lat2, some lon2 =>
        let dist := getDistance lat1 lon1 lat2 lon2
        if dist ≤ 20 then acc ++ [{ toNotif := n, _distanceKm := dist }] else acc
      | _, _, _, _ => acc

/-- The value nearbyNotifs (lines 174-190); `uid` is `auth.currentUser?.uid`. -/
noncomputable def nearbyNotifs (userCoords : Option Coords) (uid : Option String)
    (notifications : List Notif) : List FeedItem :=
  match userCoords with
  | some userCoords => notifications.foldl (reducer userCoords uid) []
  | none => []

end NotificationScreen

/-! ### Hospital searches -/

/-- An entry of the hospital directory `data/hospitals.json`, with the fields that the screens
read. The directory itself is a parameter of the searches. -/
structure Hospital where
  id : Nat
  name : String
  address : String
  latitude : ℝ
  longitude : ℝ

/-- A hospital annotated with its distance, as the web search builds it. -/
structure HospitalKm extends Hospital where
  distanceKm : ℝ

namespace DonateBloodScreen

/-- The value `nearby` of DonateBloodScreen.jsx (lines 52-60) for a position and a directory. -/
noncomputable def nearby (latitude longitude : ℝ) (hospitalsData : List Hospital) :
    List Hospital :=
  hospitalsData.filter (fun h =>
    let dist := getDistance latitude longitude h.latitude h.longitude
    decide (dist ≤ 20))

end DonateBloodScreen

namespace DonateBloodScreenWeb

/-- The value `nearby` of handleShareLocation in DonateBloodScreen.web.jsx (lines 77-83);
`Array.prototype.sort` is a stable sort. -/
noncomputable def nearby (latitude longitude : ℝ) (hospitalsData : List Hospital) :
    List HospitalKm :=
  ((hospitalsData.map (fun h =>
      ({ toHospital := h,
         distanceKm := getDistance latitude longitude h.latitude h.longitude } : HospitalKm))).filter
    (fun h => decide (h.distanceKm ≤ 20))).mergeSort
    (fun a b => decide (a.distanceKm - b.distanceKm ≤ 0))

end DonateBloodScreenWeb

/-! ### The store and the request lifecycle -/

/-- The records under `notifications` of the store, by key, in the order of the keys. -/
abbrev Store := List (String × Request)

/-- The record without any field. -/
def emptyRequest : Request :=
  { title := none, requesterId := none, requesterName := none, requesterBloodGroup := none,
    requesterAge := none, requesterGender := none, requesterAvailability := none,
    hospitalName := none, hospitalLocation := none, requesterCoords := none, status := none,
    timestamp := none, notificationId := none, dismissedAt := none, dismissedBy := none }

/-- The store after `set(ref(db, "notifications/" + key), r)` of firebase/database: the value
at the key is replaced by `r`; a key without data gets the record. -/
def storeSet (store : Store) (key : String) (r : Request) : Store :=
  if store.any (fun e => e.1 == key) then
    store.map (fun e => if e.1 == key then (e.1, r) else e)
  else store ++ [(key, r)]

/-- The store after `update(ref(db, "notifications/" + key), fields)` of firebase/database,
where `patch` writes the given fields into a record: the named children of the location are
written and its other children are left; at a location without data the update thereby creates
a record that has the named children only. -/
def storeUpdate (store : Store) (key : String) (patch : Request → Request) : Store :=
  if store.any (fun e => e.1 == key) then
    store.map (fun e => if e.1 == key then (e.1, patch e.2) else e)
  else store ++ [(key, patch emptyRequest)]

/-- The text of a coordinate field of a form, by what the screens observe of it: the empty
text (falsy, and NaN for `parseFloat`), or a text that is not empty, with the number that
`parseFloat` reads from it (`none` for NaN). -/
inductive CoordText
  | empty
  | text (value : Option ℝ)

/-- JavaScript truthiness of the text of a coordinate field. -/
def CoordText.truthy : CoordText → Bool
  | CoordText.empty => false
  | CoordText.text _ => true

/-- The number that `parseFloat` reads from the text of a coordinate field. -/
def CoordText.parseFloat : CoordText → Option ℝ
  | CoordText.empty => none
  | CoordText.text value => value

/-- The record `users/{uid}/medicalInfo`, with the fields that AddInfoScreen.jsx writes
(lines 115-127). -/
structure MedicalInfo where
  fullName : Option String
  age : Option String
  gender : Option String
  bloodGroup : Option String
  location : Option String
  latitude : CoordText
  longitude : CoordText
  allergy : Option String
  disease : Option String
  availableToDonate : Option Bool
  lastUpdated : Option String

/-- The JavaScript expression `v || d` for a string field `v` that may be missing. -/
def orDefault (v : Option String) (d : String) : String :=
  match v with
  | some s => if s != "" then s else d
  | none => d

/-- The white space that `String.prototype.trim` removes: the WhiteSpace and LineTerminator
code points of ECMAScript. -/
def isWhiteSpace (c : Char) : Bool :=
  [0x9, 0xA, 0xB, 0xC, 0xD, 0x20, 0xA0, 0x1680, 0x2028, 0x2029, 0x202F, 0x205F, 0x3000,
    0xFEFF].contains c.toNat || (0x2000 ≤ c.toNat && c.toNat ≤ 0x200A)

/-- The JavaScript method `trim`: the text without the white space at its two ends. -/
def trim (s : String) : String :=
  String.mk ((s.data.dropWhile isWhiteSpace).reverse.dropWhile isWhiteSpace).reverse

/-- An alert shown to the user: title and message. -/
structure Alert where
  title : String
  message : String

namespace RequestBloodScreen

/-- The state of RequestBloodScreen that handleSendNotification reads (lines 23-28). -/
structure FormState where
  userInfo : Option MedicalInfo
  hospitalName : String
  hospitalLocation : String
  latitude : CoordText
  longitude : CoordText
  loading : Bool

/-- What a call of handleSendNotification leaves: the alert shown, the state of the form and
the store. -/
structure SendOutcome where
  alert : Alert
  form : FormState
  store : Store

/-- The function handleSendNotification (lines 106-158). `currentUser` is the uid of
`auth.currentUser`, `key` is the key of the reference that `push` returns, `now` is
`Date.now()`, and `setError` is the message of the error that `set` throws, `none` when the
store accepts the write. -/
def handleSendNotification (form : FormState) (currentUser : Option String) (key : String)
    (now : Nat) (setError : Option String) (store : Store) : SendOutcome :=
  if form.hospitalName == "" || form.hospitalLocation == "" ||
      !form.latitude.truthy || !form.longitude.truthy then
    { alert := ⟨"Error", "Please fill all fields and capture your location first."⟩,
      form := form, store := store }
  else
    match form.userInfo with
    | none => { alert := ⟨"Error", "User info not found."⟩, form := form, store := store }
    | some userInfo =>
      match currentUser with
      | none => { alert := ⟨"Error", "User not authenticated."⟩, form := form, store := store }
      | some uid =>
        let notificationData : Request :=
          { title := some "Blood Request"
            requesterId := some uid
            requesterName := some (orDefault userInfo.fullName "Unknown")
            requesterBloodGroup := some (orDefault userInfo.bloodGroup "Unknown")
            requesterAge := some (orDefault userInfo.age "Unknown")
            requesterGender := some (orDefault userInfo.gender "Unknown")
            requesterAvailability := some (userInfo.availableToDonate.getD false)
            hospitalName := some (trim form.hospitalName)
            hospitalLocation := some (trim form.hospitalLocation)
            requesterCoords := some ⟨form.latitude.parseFloat, form.longitude.parseFloat⟩
            status := some "active"
            timestamp := some now
            notificationId := some key
            dismissedAt := none
            dismissedBy := none }
        match setError with
        | none =>
          { alert := ⟨"Success", "Blood request sent successfully!"⟩,
            form := { form with hospitalName := "", hospitalLocation := "",
                                latitude := CoordText.empty, longitude := CoordText.empty,
                                loading := false },
            store := storeSet store key notificationData }
        | some message =>
          { alert := ⟨"Error",
              if message != "" then message
              else "Failed to send blood request. Please try again."⟩,
            form := { form with loading := false }, store := store }

end RequestBloodScreen

namespace NotificationScreen

/-- What a call of dismissNotification leaves: the alert shown, the `dismissing` flag and the
store. -/
structure DismissOutcome where
  alert : Alert
  dismissing : Bool
  store : Store

/-- The fields that dismissNotification passes to `update` (lines 146-148), written into a
record. -/
def dismissedFields (now : Nat) (uid : String) (r : Request) : Request :=
  { r with status := some "dismissed", dismissedAt := some now, dismissedBy := some uid }

/-- The function dismissNotification (lines 141-156). `currentUser` is `auth.currentUser?.uid`,
`now` is `Date.now()`, and `updateError` is the message of the error that `update` throws, `none`
when the store accepts the update. Without a user the value of `dismissedBy` is `undefined`,
which `update` rejects with an error. -/
def dismissNotification (notificationId : String) (currentUser : Option String) (now : Nat)
    (updateError : Option String) (store : Store) : DismissOutcome :=
  match currentUser, updateError with
  | some uid, none =>
    { alert := ⟨"Success", "Notification dismissed"⟩, dismissing := false,
      store := storeUpdate store notificationId (dismissedFields now uid) }
  | _, _ =>
    { alert := ⟨"Error", "Failed to dismiss notification"⟩, dismissing := false,
      store := store }

end NotificationScreen

/-! ### Sequences of lifecycle steps, snapshots and the origin -/

/-- One step of the lifecycle of the requests on the store: a call of handleSendNotification,
for which `push` has assigned a key that the store does not hold, or a call of
dismissNotification. -/
inductive Step : Store → Store → Prop
  | create (store : Store) (form : RequestBloodScreen.FormState) (currentUser : Option String)
      (key : String) (now : Nat) (setError : Option String)
      (hfresh : ∀ e ∈ store, e.1 ≠ key) :
      Step store
        (RequestBloodScreen.handleSendNotification form currentUser key now setError store).store
  | dismiss (store : Store) (notificationId : String) (currentUser : Option String) (now : Nat)
      (updateError : Option String) :
      Step store
        (NotificationScreen.dismissNotification notificationId currentUser now updateError
          store).store

/-- The stores that a sequence of steps reaches from the store `init`. -/
inductive Reachable (init : Store) : Store → Prop
  | start : Reachable init init
  | step {s t : Store} (hs : Reachable init s) (ht : Step s t) : Reachable init t

/-- The snapshot of `notifications` that the subscription delivers for a store: a location
without data gives a snapshot that does not exist. -/
def storeSnapshot (store : Store) : Snapshot :=
  if store.isEmpty then none else some store

/-- What reading `users/{uid}/medicalInfo` gives: an error with its message, a snapshot that
does not exist, or the record. -/
inductive InfoRead
  | failed (message : String)
  | absent
  | found (info : MedicalInfo)

namespace NotificationScreen

/-- What the effect leaves: the state of the screen and the alert shown, if any. -/
structure LocateOutcome where
  state : ScreenState
  alert : Option Alert

/-- The asynchronous function of the effect (lines 65-98). `granted` tells whether the
permission status is "granted", `position` is the latitude and longitude that
`getCurrentPositionAsync` resolves with (`none` when it throws), `currentUser` is the uid of
`auth.currentUser` and `infoRead` is what `get` gives for the profile. -/
def loadUserCoords (mounted granted : Bool) (position : Option (ℝ × ℝ))
    (currentUser : Option String) (infoRead : InfoRead) (st : ScreenState) : LocateOutcome :=
  let st1 : ScreenState :=
    if granted then
      match position with
      | some loc =>
        if mounted then { st with userCoords := some ⟨some loc.1, some loc.2⟩ } else st
      | none => st
    else st
  match currentUser with
  | none => { state := st1, alert := none }
  | some _ =>
    match infoRead with
    | InfoRead.found info =>
      if info.latitude.truthy && info.longitude.truthy && mounted then
        { state := { st1 with
            userCoords := some ⟨info.latitude.parseFloat, info.longitude.parseFloat⟩ },
          alert := none }
      else { state := st1, alert := none }
    | InfoRead.absent => { state := st1, alert := none }
    | InfoRead.failed message =>
      { state := st1, alert := if mounted then some ⟨"Error", message⟩ else none }

/-- The state of the screen after the subscription callback has received the snapshots of a
list, one after the other, while the screen is mounted. -/
def deliver (snaps : List Snapshot) (st : ScreenState) : ScreenState :=
  snaps.foldl (fun s snap => callback true snap s) st

end NotificationScreen

/-- Two records agree in every field other than status, dismissedAt and dismissedBy. -/
def sameExceptDismissal (r r2 : Request) : Prop :=
  r2.title = r.title ∧ r2.requesterId = r.requesterId ∧ r2.requesterName = r.requesterName ∧
  r2.requesterBloodGroup = r.requesterBloodGroup ∧ r2.requesterAge = r.requesterAge ∧
  r2.requesterGender = r.requesterGender ∧
  r2.requesterAvailability = r.requesterAvailability ∧ r2.hospitalName = r.hospitalName ∧
  r2.hospitalLocation = r.hospitalLocation ∧ r2.requesterCoords = r.requesterCoords ∧
  r2.timestamp = r.timestamp ∧ r2.notificationId = r.notificationId

/-! ### The feed in the words of the specification -/

/-- The notifications that a snapshot lists: the `list` of the subscription callback (line 55),
empty for a snapshot that does not exist. -/
def snapshotList : Snapshot → List Notif
  | some val => val.map (fun e => { toRequest := e.2, id := e.1 })
  | none => []

/-- A record has numerically valid coordinates: requesterCoords is present and both of its
components are numbers. -/
def hasNumericCoords (r : Request) : Bool :=
  match r.requesterCoords with
  | some c => c.latitude.isSome && c.longitude.isSome
  | none => false

/-- The requests that the feed of the user `uid` at the origin `(lat, lon)` is to show, in the
words of the specification: active, not created by the current user, with numerically valid
coordinates, at a distance of at most 20 km from the origin. -/
def Eligible (lat lon : ℝ) (uid : String) (n : Notif) : Prop :=
  n.status = some "active" ∧ n.requesterId ≠ some uid ∧
    ∃ lat2 lon2 : ℝ, n.requesterCoords = some ⟨some lat2, some lon2⟩ ∧
      NotificationScreen.getDistance lat lon lat2 lon2 ≤ 20

noncomputable instance Eligible.decidable (lat lon : ℝ) (uid : String) (n : Notif) :
    Decidable (Eligible lat lon uid n) :=
  Classical.propDecidable _

/-! ### Example data -/

/-- The latitude, in degrees, of the point `km` kilometres north of the equator on a sphere of
radius 6371 km. -/
noncomputable def degreesNorth (km : ℝ) : ℝ := km * 180 / (6371 * Real.pi)

/-- A record as handleSendNotification writes it (RequestBloodScreen.jsx lines 123-139), by
`requesterId`, at the given coordinates. -/
def activeRequest (requesterId : String) (latitude longitude : ℝ) : Request :=
  { title := some "Blood Request"
    requesterId := some requesterId
    requesterName := some "Unknown"
    requesterBloodGroup := some "O+"
    requesterAge := some "30"
    requesterGender := some "Unknown"
    requesterAvailability := some false
    hospitalName := some "General Hospital"
    hospitalLocation := some "Main Street"
    requesterCoords := some ⟨some latitude, some longitude⟩
    status := some "active"
    timestamp := some 1
    notificationId := none
    dismissedAt := none
    dismissedBy := none }

/-- A hospital of the directory at the given coordinates. -/
def exampleHospital (id : Nat) (latitude longitude : ℝ) : Hospital :=
  { id := id, name := "General Hospital", address := "Main Street",
    latitude := latitude, longitude := longitude }

/-- A snapshot of two active requests of other users, 5 km and 25 km north of the origin of
the equator. -/
noncomputable def snapshotNearFar : Snapshot :=
  some [("a", activeRequest "u2" (degreesNorth 5) 0),
    ("b", activeRequest "u3" (degreesNorth 25) 0)]

/-- A snapshot of two active requests of other users, the first 10 km north of the origin of
the equator, the second at the origin. -/
noncomputable def snapshotFarFirst : Snapshot :=
  some [("a", activeRequest "u2" (degreesNorth 10) 0),
    ("b", activeRequest "u3" (degreesNorth 0) 0)]

/-- A snapshot of one active request of another user, at the origin of the equator. -/
noncomputable def snapshotAtOrigin : Snapshot :=
  some [("a", activeRequest "u2" (degreesNorth 0) 0)]

/-- The item of the feed for the request "a" of "u2" at the origin of the equator. -/
noncomputable def itemAtOrigin : FeedItem :=
  { toNotif := { toRequest := activeRequest "u2" (degreesNorth 0) 0, id := "a" },
    _distanceKm := 0 }

/-- The item of the feed for the request "a" of "u2" 5 km north of the origin of the equator. -/
noncomputable def itemNear : FeedItem :=
  { toNotif := { toRequest := activeRequest "u2" (degreesNorth 5) 0, id := "a" },
    _distanceKm := 5 }

/-- A record as dismissNotification leaves it (NotificationScreen.jsx lines 145-149): the
request of `requesterId` at the given coordinates, dismissed by "u4". -/
def dismissedRequest (requesterId : String) (latitude longitude : ℝ) : Request :=
  { activeRequest requesterId latitude longitude with
    status := some "dismissed"
    dismissedAt := some 2
    dismissedBy := some "u4" }

/-- A snapshot of an active request 5 km north of the origin of the equator and a dismissed
request 2 km north of it, both of other users. -/
noncomputable def snapshotDismissed : Snapshot :=
  some [("d", dismissedRequest "u3" (degreesNorth 2) 0),
    ("a", activeRequest "u2" (degreesNorth 5) 0)]

/-- The notification for an active request of "u2" under the key "a", `km` kilometres north of
the origin of the equator. -/
noncomputable def notifNorth (km : ℝ) : Notif :=
  { toRequest := activeRequest "u2" (degreesNorth km) 0, id := "a" }

/-- The hospital `km` kilometres north of the origin of the equator. -/
noncomputable def hospitalNorth (km : ℝ) : Hospital :=
  exampleHospital 1 (degreesNorth km) 0

/-- A profile as AddInfoScreen.jsx saves it. -/
def exampleProfile : MedicalInfo :=
  { fullName := some "Ada", age := some "30", gender := some "Female", bloodGroup := some "O+",
    location := some "Main Street", latitude := CoordText.empty, longitude := CoordText.empty,
    allergy := some "", disease := some "", availableToDonate := some true,
    lastUpdated := some "2025-01-01T00:00:00.000Z" }

/-- A profile without the field bloodGroup. -/
def profileWithoutBloodGroup : MedicalInfo :=
  { exampleProfile with bloodGroup := none }

/-- The filled form of RequestBloodScreen, with the given profile and the given captured
coordinates. -/
def filledForm (userInfo : Option MedicalInfo) (latitude longitude : ℝ) :
    RequestBloodScreen.FormState :=
  { userInfo := userInfo, hospitalName := "General Hospital", hospitalLocation := "Main Street",
    latitude := CoordText.text (some latitude), longitude := CoordText.text (some longitude),
    loading := false }

/-- The form of RequestBloodScreen before anything is entered (lines 23-28). -/
def blankForm (userInfo : Option MedicalInfo) : RequestBloodScreen.FormState :=
  { userInfo := userInfo, hospitalName := "", hospitalLocation := "",
    latitude := CoordText.empty, longitude := CoordText.empty, loading := false }

/-- A store that holds one active request of "u2" under the key "k0". -/
def storeOneActive : Store := [("k0", activeRequest "u2" 0 0)]

/-- A store that holds one request of "u3" under the key "k0", dismissed by "u4" at time 2. -/
def storeOneDismissed : Store := [("k0", dismissedRequest "u3" 0 0)]

/-- The filled form of RequestBloodScreen with a hospital name of three spaces. -/
def formBlankName (userInfo : Option MedicalInfo) (latitude longitude : ℝ) :
    RequestBloodScreen.FormState :=
  { filledForm userInfo latitude longitude with hospitalName := "   " }

/-- A profile with the stored coordinates (1, 2). -/
def profileWithCoords : MedicalInfo :=
  { exampleProfile with latitude := CoordText.text (some 1), longitude := CoordText.text (some 2) }

/-- The store after the user "u1" has created a request under the key "k1" at the clock
reading 5 on the empty store and the user "u2" has dismissed it at the clock reading 7. -/
def storeCreatedDismissed : Store :=
  (NotificationScreen.dismissNotification "k1" (some "u2") 7 none
    (RequestBloodScreen.handleSendNotification (filledForm (some exampleProfile) 0 0)
      (some "u1") "k1" 5 none []).store).store

/-! ## Theorems -/

/-- The haversine term of two points given in degrees, as `getDistance` computes it. -/
theorem haversine_term_nonneg (lat1 lon1 lat2 lon2 : ℝ) :
    0 ≤ Real.sin ((((lat2 - lat1) * Real.pi) / 180) / 2) ^ 2 +
      Real.cos ((lat1 * Real.pi) / 180) * Real.cos ((lat2 * Real.pi) / 180) *
        Real.sin ((((lon2 - lon1) * Real.pi) / 180) / 2) ^ 2 := by
  set p := (lat1 * Real.pi) / 180 with hp
  set q := (lat2 * Real.pi) / 180 with hq
  set s := Real.sin ((((lon2 - lon1) * Real.pi) / 180) / 2) ^ 2 with hs
  have hd : (((lat2 - lat1) * Real.pi) / 180) / 2 = (q - p) / 2 := by
    rw [hp, hq]; ring
  rw [hd]
  have hs0 : 0 ≤ s := sq_nonneg _
  have hs1 : s ≤ 1 := Real.sin_sq_le_one _
  have h1 : Real.sin ((q - p) / 2) ^ 2 = (1 - Real.cos (q - p)) / 2 := by
    have e : 2 * ((q - p) / 2) = q - p := by ring
    have h3 := Real.cos_two_mul ((q - p) / 2)
    rw [e] at h3
    have h2 := Real.sin_sq_add_cos_sq ((q - p) / 2)
    linarith
  have h2 : Real.cos p * Real.cos q = (Real.cos (q - p) + Real.cos (q + p)) / 2 := by
    rw [Real.cos_sub, Real.cos_add]; ring
  rw [h1, h2]
  have c1 := Real.cos_le_one (q - p)
  have c2 := Real.neg_one_le_cos (q + p)
  nlinarith

/-- The haversine term of `getDistance` is at most 1. -/
theorem haversine_term_le_one (lat1 lon1 lat2 lon2 : ℝ) :
    Real.sin ((((lat2 - lat1) * Real.pi) / 180) / 2) ^ 2 +
      Real.cos ((lat1 * Real.pi) / 180) * Real.cos ((lat2 * Real.pi) / 180) *
        Real.sin ((((lon2 - lon1) * Real.pi) / 180) / 2) ^ 2 ≤ 1 := by
  set p := (lat1 * Real.pi) / 180 with hp
  set q := (lat2 * Real.pi) / 180 with hq
  set s := Real.sin ((((lon2 - lon1) * Real.pi) / 180) / 2) ^ 2 with hs
  have hd : (((lat2 - lat1) * Real.pi) / 180) / 2 = (q - p) / 2 := by
    rw [hp, hq]; ring
  rw [hd]
  have hs0 : 0 ≤ s := sq_nonneg _
  have hs1 : s ≤ 1 := Real.sin_sq_le_one _
  have h1 : Real.sin ((q - p) / 2) ^ 2 = (1 - Real.cos (q - p)) / 2 := by
    have e : 2 * ((q - p) / 2) = q - p := by ring
    have h3 := Real.cos_two_mul ((q - p) / 2)
    rw [e] at h3
    have h2 := Real.sin_sq_add_cos_sq ((q - p) / 2)
    linarith
  have h2 : Real.cos p * Real.cos q = (Real.cos (q - p) + Real.cos (q + p)) / 2 := by
    rw [Real.cos_sub, Real.cos_add]; ring
  rw [h1, h2]
  have c1 := Real.neg_one_le_cos (q - p)
  have c2 := Real.cos_le_one (q + p)
  nlinarith

/-- On a point of the closed first quadrant `atan2` is not negative. -/
theorem atan2_nonneg {y x : ℝ} (hy : 0 ≤ y) (hx : 0 ≤ x) : 0 ≤ atan2 y x := by
  unfold atan2
  have hpi := Real.pi_pos
  have ha : 0 ≤ Real.arctan (y / x) := by
    have h : 0 ≤ y / x := div_nonneg hy hx
    have := Real.arctan_strictMono.monotone h
    rwa [Real.arctan_zero] at this
  split_ifs <;> first | exact ha | linarith

/-- On the sine and cosine of an angle of the open right half plane `atan2` gives the angle. -/
theorem atan2_sin_cos {t : ℝ} (h1 : -(Real.pi / 2) < t) (h2 : t < Real.pi / 2) :
    atan2 (Real.sin t) (Real.cos t) = t := by
  have hc : 0 < Real.cos t := Real.cos_pos_of_mem_Ioo ⟨h1, h2⟩
  unfold atan2
  rw [if_pos hc, ← Real.tan_eq_sin_div_cos, Real.arctan_tan h1 h2]

/-- The three copies of getDistance: the copy of the native hospital search is the copy of
the request feed. -/
theorem DonateBloodScreen.getDistance_native_eq (lat1 lon1 lat2 lon2 : ℝ) :
    DonateBloodScreen.getDistance lat1 lon1 lat2 lon2 =
      NotificationScreen.getDistance lat1 lon1 lat2 lon2 := by
  simp only [DonateBloodScreen.getDistance, NotificationScreen.getDistance, mul_assoc]

/-- The three copies of getDistance: the copy of the web hospital search is the copy of
the request feed. -/
theorem DonateBloodScreenWeb.getDistance_web_eq (lat1 lon1 lat2 lon2 : ℝ) :
    DonateBloodScreenWeb.getDistance lat1 lon1 lat2 lon2 =
      NotificationScreen.getDistance lat1 lon1 lat2 lon2 := by
  simp only [DonateBloodScreenWeb.getDistance, NotificationScreen.getDistance, mul_assoc, sq]

/-- Along a meridian, northwards over less than half a turn, getDistance is the radius times
the difference of latitude in radians. -/
theorem NotificationScreen.getDistance_meridian (lat1 lon lat2 : ℝ)
    (h1 : lat1 ≤ lat2) (h2 : lat2 < lat1 + 180) :
    NotificationScreen.getDistance lat1 lon lat2 lon = 6371 * ((lat2 - lat1) * Real.pi / 180) := by
  have hpi := Real.pi_pos
  set t := (((lat2 - lat1) * Real.pi) / 180) / 2 with ht
  have ht0 : 0 ≤ t := by
    rw [ht]
    have : 0 ≤ (lat2 - lat1) * Real.pi := mul_nonneg (by linarith) hpi.le
    linarith
  have ht1 : t < Real.pi / 2 := by
    rw [ht]
    have : (lat2 - lat1) * Real.pi < 180 * Real.pi := mul_lt_mul_of_pos_right (by linarith) hpi
    linarith
  have hneg : -(Real.pi / 2) < t := by linarith
  have hs : 0 ≤ Real.sin t := Real.sin_nonneg_of_nonneg_of_le_pi ht0 (by linarith)
  have hc : 0 ≤ Real.cos t := (Real.cos_pos_of_mem_Ioo ⟨hneg, ht1⟩).le
  have ha : Real.sin t ^ 2 +
      Real.cos ((lat1 * Real.pi) / 180) * Real.cos ((lat2 * Real.pi) / 180) *
        Real.sin ((((lon - lon) * Real.pi) / 180) / 2) ^ 2 = Real.sin t ^ 2 := by
    simp
  have hq : Real.sqrt (1 - Real.sin t ^ 2) = Real.cos t := by
    rw [← Real.cos_sq', Real.sqrt_sq hc]
  show (6371 : ℝ) * (2 * atan2 (Real.sqrt (Real.sin t ^ 2 +
      Real.cos ((lat1 * Real.pi) / 180) * Real.cos ((lat2 * Real.pi) / 180) *
        Real.sin ((((lon - lon) * Real.pi) / 180) / 2) ^ 2)) (Real.sqrt (1 - (Real.sin t ^ 2 +
      Real.cos ((lat1 * Real.pi) / 180) * Real.cos ((lat2 * Real.pi) / 180) *
        Real.sin ((((lon - lon) * Real.pi) / 180) / 2) ^ 2)))) = _
  rw [ha, hq, Real.sqrt_sq hs, atan2_sin_cos hneg ht1, ht]
  ring

/-- C8: for every latitude and longitude, as real numbers, getDistance from a point to
itself is 0. -/
theorem NotificationScreen.getDistance_self (lat lon : ℝ) :
    NotificationScreen.getDistance lat lon lat lon = 0 := by
  have h := NotificationScreen.getDistance_meridian lat lon lat (le_refl lat) (by linarith)
  rw [h]; ring

/-- C9: getDistance is symmetric: for all points (lat1, lon1) and (lat2, lon2), as real
numbers, the distance from the first to the second is the distance from the second to the
first. -/
theorem NotificationScreen.getDistance_comm (lat1 lon1 lat2 lon2 : ℝ) :
    NotificationScreen.getDistance lat1 lon1 lat2 lon2 =
      NotificationScreen.getDistance lat2 lon2 lat1 lon1 := by
  have e1 : (((lat1 - lat2) * Real.pi) / 180) / 2 = -((((lat2 - lat1) * Real.pi) / 180) / 2) := by
    ring
  have e2 : (((lon1 - lon2) * Real.pi) / 180) / 2 = -((((lon2 - lon1) * Real.pi) / 180) / 2) := by
    ring
  simp only [NotificationScreen.getDistance, e1, e2, Real.sin_neg, neg_sq,
    mul_comm (Real.cos ((lat2 * Real.pi) / 180)) (Real.cos ((lat1 * Real.pi) / 180))]

/-- In exact arithmetic getDistance is not negative, for all real latitudes and longitudes, in
or out of the ranges of a GeoPoint. This is a fact of the formula and not of the doubles of
the program: where the computed `a` exceeds 1 the program returns NaN
(`distanceOfTerm_above_one`). -/
theorem NotificationScreen.getDistance_nonneg (lat1 lon1 lat2 lon2 : ℝ) :
    0 ≤ NotificationScreen.getDistance lat1 lon1 lat2 lon2 := by
  unfold NotificationScreen.getDistance
  have h := atan2_nonneg
    (Real.sqrt_nonneg (Real.sin ((((lat2 - lat1) * Real.pi) / 180) / 2) ^ 2 +
      Real.cos ((lat1 * Real.pi) / 180) * Real.cos ((lat2 * Real.pi) / 180) *
        Real.sin ((((lon2 - lon1) * Real.pi) / 180) / 2) ^ 2))
    (Real.sqrt_nonneg (1 - (Real.sin ((((lat2 - lat1) * Real.pi) / 180) / 2) ^ 2 +
      Real.cos ((lat1 * Real.pi) / 180) * Real.cos ((lat2 * Real.pi) / 180) *
        Real.sin ((((lon2 - lon1) * Real.pi) / 180) / 2) ^ 2)))
  show 0 ≤ (6371 : ℝ) * (2 * atan2 _ _)
  positivity

/-! ### The request feed -/

/-- The distance from the origin of the equator to the point `km` kilometres north of it. -/
theorem getDistance_degreesNorth (km : ℝ) (h0 : 0 ≤ km) (h1 : km ≤ 20000) :
    NotificationScreen.getDistance 0 0 (degreesNorth km) 0 = km := by
  have hpi : (3.14 : ℝ) < Real.pi := Real.pi_gt_d2
  have hpos : (0 : ℝ) < 6371 * Real.pi := by positivity
  have hlo : (0 : ℝ) ≤ degreesNorth km := by
    unfold degreesNorth
    exact div_nonneg (by linarith) hpos.le
  have hhi : degreesNorth km < 0 + 180 := by
    unfold degreesNorth
    rw [div_lt_iff₀ hpos]
    norm_num at hpi ⊢
    linarith
  rw [NotificationScreen.getDistance_meridian 0 0 (degreesNorth km) hlo hhi]
  unfold degreesNorth
  field_simp
  ring

/-- The reduce callback appends to the accumulator what it yields on the empty one. -/
theorem NotificationScreen.reducer_append (uc : Coords) (uid : Option String)
    (acc : List FeedItem) (n : Notif) :
    NotificationScreen.reducer uc uid acc n = acc ++ NotificationScreen.reducer uc uid [] n := by
  unfold NotificationScreen.reducer
  cases hrc : n.requesterCoords with
  | none => simp
  | some rc =>
    obtain ⟨la, lo⟩ := uc
    obtain ⟨la2, lo2⟩ := rc
    cases la <;> cases lo <;> cases la2 <;> cases lo2 <;> simp
    split_ifs <;> simp

/-- The fold of the reduce callback is the concatenation of its yields. -/
theorem NotificationScreen.foldl_reducer (uc : Coords) (uid : Option String)
    (ns : List Notif) (acc : List FeedItem) :
    ns.foldl (NotificationScreen.reducer uc uid) acc =
      acc ++ ns.flatMap (NotificationScreen.reducer uc uid []) := by
  induction ns generalizing acc with
  | nil => simp
  | cons n ns ih =>
    rw [List.foldl_cons, ih, NotificationScreen.reducer_append uc uid acc n]
    simp

/-- The feed of a known origin, record by record. -/
theorem NotificationScreen.nearbyNotifs_some (uc : Coords) (uid : Option String)
    (ns : List Notif) :
    NotificationScreen.nearbyNotifs (some uc) uid ns =
      ns.flatMap (NotificationScreen.reducer uc uid []) := by
  simp [NotificationScreen.nearbyNotifs, NotificationScreen.foldl_reducer]

/-- The notifications that the callback keeps, while the screen is mounted. -/
theorem NotificationScreen.callback_notifications (snap : Snapshot) (st : ScreenState) :
    (NotificationScreen.callback true snap st).notifications =
      (snapshotList snap).filter (fun n => n.status == some "active") := by
  cases snap <;> simp [NotificationScreen.callback, snapshotList]

/-- For a user id that is not empty, the guard on the requester is the comparison of the
requester with the user. -/
theorem own_guard (uid : String) (huid : uid ≠ "") (rid : Option String) :
    (truthy rid && truthy (some uid) && rid == some uid) = decide (rid = some uid) := by
  by_cases h : rid = some uid
  · subst h
    simp [truthy, huid]
  · have h2 : (rid == some uid) = false := by simpa using h
    simp [h, h2]

/-- What the reduce callback yields on an active record, for a numeric origin and a user id
that is not empty. -/
theorem NotificationScreen.reducer_active (lat lon : ℝ) (uid : String) (huid : uid ≠ "")
    (n : Notif) (hst : n.status = some "active") (lat2 lon2 : ℝ)
    (hc : n.requesterCoords = some ⟨some lat2, some lon2⟩) :
    NotificationScreen.reducer ⟨some lat, some lon⟩ (some uid) [] n =
      if n.requesterId ≠ some uid ∧ NotificationScreen.getDistance lat lon lat2 lon2 ≤ 20 then
        [{ toNotif := n, _distanceKm := NotificationScreen.getDistance lat lon lat2 lon2 }]
      else [] := by
  unfold NotificationScreen.reducer
  rw [hc]
  simp only [own_guard uid huid, hst]
  by_cases h : n.requesterId = some uid
  · simp [h, truthy]
  · by_cases hd : NotificationScreen.getDistance lat lon lat2 lon2 ≤ 20
    · simp [h, hd, truthy]
    · simp [h, hd, truthy]

/-- The reduce callback yields nothing on a record without numeric coordinates. -/
theorem NotificationScreen.reducer_not_numeric (uc : Coords) (uid : Option String) (n : Notif)
    (h : hasNumericCoords n.toRequest = false) :
    NotificationScreen.reducer uc uid [] n = [] := by
  unfold NotificationScreen.reducer
  unfold hasNumericCoords at h
  cases hrc : n.requesterCoords with
  | none => simp
  | some rc =>
    rw [hrc] at h
    obtain ⟨la, lo⟩ := uc
    obtain ⟨la2, lo2⟩ := rc
    cases la <;> cases lo <;> cases la2 <;> cases lo2 <;> simp at h ⊢

/-- Every item that the reduce callback yields is the record itself with a distance of at most
20, the record has passed the guards on status and requester, and the coordinates are numbers. -/
theorem NotificationScreen.mem_reducer (uc : Coords) (uid : Option String) (n : Notif)
    (item : FeedItem) (h : item ∈ NotificationScreen.reducer uc uid [] n) :
    item.toNotif = n ∧
      (truthy n.status && n.status != some "active") = false ∧
      (truthy n.requesterId && truthy uid && n.requesterId == uid) = false ∧
      ∃ lat1 lon1 lat2 lon2 : ℝ, uc = ⟨some lat1, some lon1⟩ ∧
        n.requesterCoords = some ⟨some lat2, some lon2⟩ ∧
        item._distanceKm = NotificationScreen.getDistance lat1 lon1 lat2 lon2 ∧
        item._distanceKm ≤ 20 := by
  unfold NotificationScreen.reducer at h
  cases hrc : n.requesterCoords with
  | none => rw [hrc] at h; simp at h
  | some rc =>
    rw [hrc] at h
    obtain ⟨la, lo⟩ := uc
    obtain ⟨la2, lo2⟩ := rc
    by_cases g1 : (truthy n.status && n.status != some "active") = true
    · simp [g1] at h
    · by_cases g2 : (truthy n.requesterId && truthy uid && n.requesterId == uid) = true
      · simp [g1, g2] at h
      · simp only [if_neg g1, if_neg g2] at h
        cases la <;> cases lo <;> cases la2 <;> cases lo2 <;> simp at h
        rename_i lat1 lon1 lat2 lon2
        obtain ⟨hd, rfl⟩ := h
        refine ⟨rfl, by simpa using g1, by simpa using g2, lat1, lon1, lat2, lon2, rfl, rfl, rfl, hd⟩

/-- A record has numeric coordinates exactly when requesterCoords holds two numbers. -/
theorem hasNumericCoords_iff (r : Request) :
    hasNumericCoords r = true ↔
      ∃ lat2 lon2 : ℝ, r.requesterCoords = some ⟨some lat2, some lon2⟩ := by
  unfold hasNumericCoords
  cases hrc : r.requesterCoords with
  | none => simp
  | some rc =>
    obtain ⟨la2, lo2⟩ := rc
    cases la2 <;> cases lo2 <;> simp

/-- Membership in the feed of a known origin, record by record. -/
theorem NotificationScreen.mem_nearbyNotifs (uc : Coords) (uid : Option String)
    (ns : List Notif) (item : FeedItem) :
    item ∈ NotificationScreen.nearbyNotifs (some uc) uid ns ↔
      ∃ n ∈ ns, item ∈ NotificationScreen.reducer uc uid [] n := by
  rw [NotificationScreen.nearbyNotifs_some, List.mem_flatMap]

/-- On an active record, for a numeric origin and a user id that is not empty, the reduce
callback yields the record exactly when the record is eligible. -/
theorem NotificationScreen.reducer_map_toNotif (lat lon : ℝ) (uid : String) (huid : uid ≠ "")
    (n : Notif) (hst : n.status = some "active") :
    (NotificationScreen.reducer ⟨some lat, some lon⟩ (some uid) [] n).map FeedItem.toNotif =
      if Eligible lat lon uid n then [n] else [] := by
  by_cases hnum : hasNumericCoords n.toRequest = true
  · obtain ⟨lat2, lon2, hc⟩ := (hasNumericCoords_iff n.toRequest).mp hnum
    rw [NotificationScreen.reducer_active lat lon uid huid n hst lat2 lon2 hc]
    have he : Eligible lat lon uid n ↔
        (n.requesterId ≠ some uid ∧ NotificationScreen.getDistance lat lon lat2 lon2 ≤ 20) := by
      unfold Eligible
      constructor
      · rintro ⟨_, h1, a, b, hab, hd⟩
        rw [hc] at hab
        simp only [Option.some.injEq, Coords.mk.injEq] at hab
        obtain ⟨rfl, rfl⟩ := hab
        exact ⟨h1, hd⟩
      · rintro ⟨h1, hd⟩
        exact ⟨hst, h1, lat2, lon2, hc, hd⟩
    by_cases h : n.requesterId ≠ some uid ∧ NotificationScreen.getDistance lat lon lat2 lon2 ≤ 20
    · rw [if_pos h, if_pos (he.mpr h)]; rfl
    · rw [if_neg h, if_neg (mt he.mp h)]; rfl
  · have hnum2 : hasNumericCoords n.toRequest = false := by simpa using hnum
    rw [NotificationScreen.reducer_not_numeric _ _ _ hnum2]
    have hne : ¬ Eligible lat lon uid n := by
      rintro ⟨_, _, a, b, hab, _⟩
      exact hnum ((hasNumericCoords_iff n.toRequest).mpr ⟨a, b, hab⟩)
    rw [if_neg hne]; rfl

/-- The records of the feed over the active notifications of a list are the eligible records
of the list, in the order of the list. -/
theorem NotificationScreen.feed_map_toNotif (lat lon : ℝ) (uid : String) (huid : uid ≠ "")
    (ns : List Notif) :
    ((ns.filter (fun n => n.status == some "active")).flatMap
        (NotificationScreen.reducer ⟨some lat, some lon⟩ (some uid) [])).map FeedItem.toNotif =
      ns.filter (fun n => decide (Eligible lat lon uid n)) := by
  induction ns with
  | nil => simp
  | cons n ns ih =>
    by_cases hst : n.status = some "active"
    · have h1 : List.filter (fun n : Notif => n.status == some "active") (n :: ns) =
          n :: List.filter (fun n : Notif => n.status == some "active") ns := by
        simp [List.filter_cons, hst]
      rw [h1, List.flatMap_cons, List.map_append, ih,
        NotificationScreen.reducer_map_toNotif lat lon uid huid n hst]
      by_cases he : Eligible lat lon uid n
      · simp [he]
      · simp [he]
    · have h1 : List.filter (fun n : Notif => n.status == some "active") (n :: ns) =
          List.filter (fun n : Notif => n.status == some "active") ns := by
        simp [List.filter_cons, hst]
      have he : ¬ Eligible lat lon uid n := fun h => hst h.1
      rw [h1, ih]
      simp [he]

/-- C1: for every origin, every user id (the id of a signed-in user, a string that is not
empty) and every snapshot of request records, the request feed, nearbyNotifs over the
notifications that the subscription callback keeps, holds exactly the requests that are
active, were not created by the current user, have numerically valid requesterCoords and lie at
a distance of at most 20 km from the origin: the records of the feed are the eligible records
of the snapshot, each as often as the snapshot lists it (and in the same order, so also as a
multiset), and each item carries all fields of its record and a _distanceKm equal to
getDistance from the origin to its requesterCoords. -/
theorem feed_exactly_eligible (lat lon : ℝ) (uid : String) (huid : uid ≠ "")
    (snap : Snapshot) (st : ScreenState) :
    (NotificationScreen.nearbyNotifs (some ⟨some lat, some lon⟩) (some uid)
        (NotificationScreen.callback true snap st).notifications).map FeedItem.toNotif =
      (snapshotList snap).filter (fun n => decide (Eligible lat lon uid n)) ∧
    ∀ item ∈ NotificationScreen.nearbyNotifs (some ⟨some lat, some lon⟩) (some uid)
        (NotificationScreen.callback true snap st).notifications,
      ∃ lat2 lon2 : ℝ, item.requesterCoords = some ⟨some lat2, some lon2⟩ ∧
        item._distanceKm = NotificationScreen.getDistance lat lon lat2 lon2 := by
  constructor
  · rw [NotificationScreen.callback_notifications, NotificationScreen.nearbyNotifs_some]
    exact NotificationScreen.feed_map_toNotif lat lon uid huid (snapshotList snap)
  · intro item hitem
    obtain ⟨n, _, hn⟩ := (NotificationScreen.mem_nearbyNotifs _ _ _ _).mp hitem
    obtain ⟨hto, _, _, lat1, lon1, lat2, lon2, huc, hc, hd, _⟩ :=
      NotificationScreen.mem_reducer _ _ _ _ hn
    simp only [Coords.mk.injEq, Option.some.injEq] at huc
    obtain ⟨rfl, rfl⟩ := huc
    refine ⟨lat2, lon2, ?_, hd⟩
    rw [← hc, ← hto]

/-- C4: for every signed-in user with id uid (a string that is not empty), every origin and
every list of notifications, no item of the request feed has requesterId equal to uid, whatever
its distance from the origin. -/
theorem feed_excludes_own_requests (userCoords : Option Coords) (uid : String)
    (huid : uid ≠ "") (notifications : List Notif) (item : FeedItem)
    (hitem : item ∈ NotificationScreen.nearbyNotifs userCoords (some uid) notifications) :
    item.requesterId ≠ some uid := by
  cases userCoords with
  | none => simp [NotificationScreen.nearbyNotifs] at hitem
  | some uc =>
    obtain ⟨n, _, hn⟩ := (NotificationScreen.mem_nearbyNotifs _ _ _ _).mp hitem
    obtain ⟨hto, _, hown, _⟩ := NotificationScreen.mem_reducer _ _ _ _ hn
    rw [own_guard uid huid] at hown
    have h : n.requesterId ≠ some uid := by simpa using hown
    rw [← hto] at h
    exact h

/-- C5: for every origin, every user and every snapshot, each item of the request feed has
status "active": a record with another status or none is not shown, whatever its distance. -/
theorem feed_items_active (userCoords : Option Coords) (uid : Option String)
    (snap : Snapshot) (st : ScreenState) (item : FeedItem)
    (hitem : item ∈ NotificationScreen.nearbyNotifs userCoords uid
      (NotificationScreen.callback true snap st).notifications) :
    item.status = some "active" := by
  cases userCoords with
  | none => simp [NotificationScreen.nearbyNotifs] at hitem
  | some uc =>
    obtain ⟨n, hmem, hn⟩ := (NotificationScreen.mem_nearbyNotifs _ _ _ _).mp hitem
    obtain ⟨hto, _⟩ := NotificationScreen.mem_reducer _ _ _ _ hn
    rw [NotificationScreen.callback_notifications, List.mem_filter] at hmem
    have h : n.status = some "active" := by simpa using hmem.2
    rw [← hto] at h
    exact h

/-- What the reduce callback yields, for the origin of the equator, on an active request of
another user `km` kilometres north. -/
theorem NotificationScreen.reducer_activeRequest (uid rid id : String) (huid : uid ≠ "")
    (hrid : rid ≠ uid) (km : ℝ) (h0 : 0 ≤ km) (h1 : km ≤ 20000) :
    NotificationScreen.reducer ⟨some 0, some 0⟩ (some uid) []
        { toRequest := activeRequest rid (degreesNorth km) 0, id := id } =
      if km ≤ 20 then
        [{ toNotif := { toRequest := activeRequest rid (degreesNorth km) 0, id := id },
           _distanceKm := km }]
      else [] := by
  rw [NotificationScreen.reducer_active 0 0 uid huid _ rfl (degreesNorth km) 0 rfl,
    getDistance_degreesNorth km h0 h1]
  have h : (activeRequest rid (degreesNorth km) 0).requesterId ≠ some uid := by
    simpa [activeRequest] using hrid
  by_cases hk : km ≤ 20
  · rw [if_pos hk, if_pos ⟨h, hk⟩]
  · rw [if_neg hk, if_neg (fun hh => hk hh.2)]

/-- The notifications that the callback keeps from a snapshot of active requests. -/
theorem NotificationScreen.callback_activeRequest_cons (id rid : String) (la lo : ℝ)
    (val : List (String × Request)) (st : ScreenState) :
    (NotificationScreen.callback true (some ((id, activeRequest rid la lo) :: val)) st).notifications =
      { toRequest := activeRequest rid la lo, id := id } ::
        (NotificationScreen.callback true (some val) st).notifications := by
  simp [NotificationScreen.callback, activeRequest]

/-- The callback keeps nothing from a snapshot without entries. -/
theorem NotificationScreen.callback_nil (st : ScreenState) :
    (NotificationScreen.callback true (some []) st).notifications = [] := by
  simp [NotificationScreen.callback]

/-- The feed of a known origin, by the first notification. -/
theorem NotificationScreen.nearbyNotifs_cons (uc : Coords) (uid : Option String) (n : Notif)
    (ns : List Notif) :
    NotificationScreen.nearbyNotifs (some uc) uid (n :: ns) =
      NotificationScreen.reducer uc uid [] n ++ NotificationScreen.nearbyNotifs (some uc) uid ns := by
  simp [NotificationScreen.nearbyNotifs_some]

/-- The feed of no notification is empty. -/
theorem NotificationScreen.nearbyNotifs_nil (uc : Option Coords) (uid : Option String) :
    NotificationScreen.nearbyNotifs uc uid [] = [] := by
  cases uc <;> simp [NotificationScreen.nearbyNotifs]

/-- The feed of the user "u1" at the origin of the equator over the snapshot of a request 5 km
away and a request 25 km away is the request 5 km away. -/
theorem feed_snapshotNearFar :
    NotificationScreen.nearbyNotifs (some ⟨some 0, some 0⟩) (some "u1")
        (NotificationScreen.callback true snapshotNearFar NotificationScreen.initialState).notifications =
      [{ toNotif := { toRequest := activeRequest "u2" (degreesNorth 5) 0, id := "a" },
         _distanceKm := 5 }] := by
  unfold snapshotNearFar
  rw [NotificationScreen.callback_activeRequest_cons, NotificationScreen.callback_activeRequest_cons,
    NotificationScreen.callback_nil, NotificationScreen.nearbyNotifs_cons,
    NotificationScreen.nearbyNotifs_cons, NotificationScreen.nearbyNotifs_nil,
    NotificationScreen.reducer_activeRequest "u1" "u2" "a" (by decide) (by decide) 5
      (by norm_num) (by norm_num),
    NotificationScreen.reducer_activeRequest "u1" "u3" "b" (by decide) (by decide) 25
      (by norm_num) (by norm_num)]
  norm_num

/-- The feed of the user "u1" at the origin of the equator over the snapshot that lists a
request 10 km away before a request at the origin. -/
theorem feed_snapshotFarFirst :
    NotificationScreen.nearbyNotifs (some ⟨some 0, some 0⟩) (some "u1")
        (NotificationScreen.callback true snapshotFarFirst NotificationScreen.initialState).notifications =
      [{ toNotif := { toRequest := activeRequest "u2" (degreesNorth 10) 0, id := "a" },
         _distanceKm := 10 },
       { toNotif := { toRequest := activeRequest "u3" (degreesNorth 0) 0, id := "b" },
         _distanceKm := 0 }] := by
  unfold snapshotFarFirst
  rw [NotificationScreen.callback_activeRequest_cons, NotificationScreen.callback_activeRequest_cons,
    NotificationScreen.callback_nil, NotificationScreen.nearbyNotifs_cons,
    NotificationScreen.nearbyNotifs_cons, NotificationScreen.nearbyNotifs_nil,
    NotificationScreen.reducer_activeRequest "u1" "u2" "a" (by decide) (by decide) 10
      (by norm_num) (by norm_num),
    NotificationScreen.reducer_activeRequest "u1" "u3" "b" (by decide) (by decide) 0
      (by norm_num) (by norm_num)]
  norm_num

/-- Witness of C1: the user "u1" at the origin of the equator, a snapshot of two requests of
other users 5 km and 25 km away; the feed is exactly the request 5 km away. -/
theorem feed_exactly_eligible_witness :
    ("u1" : String) ≠ "" ∧
    ((NotificationScreen.nearbyNotifs (some ⟨some 0, some 0⟩) (some "u1")
        (NotificationScreen.callback true snapshotNearFar
          NotificationScreen.initialState).notifications).map FeedItem.toNotif =
      (snapshotList snapshotNearFar).filter (fun n => decide (Eligible 0 0 "u1" n)) ∧
    ∀ item ∈ NotificationScreen.nearbyNotifs (some ⟨some 0, some 0⟩) (some "u1")
        (NotificationScreen.callback true snapshotNearFar
          NotificationScreen.initialState).notifications,
      ∃ lat2 lon2 : ℝ, item.requesterCoords = some ⟨some lat2, some lon2⟩ ∧
        item._distanceKm = NotificationScreen.getDistance 0 0 lat2 lon2) ∧
    NotificationScreen.nearbyNotifs (some ⟨some 0, some 0⟩) (some "u1")
        (NotificationScreen.callback true snapshotNearFar
          NotificationScreen.initialState).notifications =
      [{ toNotif := { toRequest := activeRequest "u2" (degreesNorth 5) 0, id := "a" },
         _distanceKm := 5 }] :=
  ⟨by decide,
    feed_exactly_eligible 0 0 "u1" (by decide) snapshotNearFar NotificationScreen.initialState,
    feed_snapshotNearFar⟩

/-- The feed of the user "u1" at the origin of the equator over the snapshot of one request at
the origin. -/
theorem feed_snapshotAtOrigin :
    NotificationScreen.nearbyNotifs (some ⟨some 0, some 0⟩) (some "u1")
        (NotificationScreen.callback true snapshotAtOrigin NotificationScreen.initialState).notifications =
      [{ toNotif := { toRequest := activeRequest "u2" (degreesNorth 0) 0, id := "a" },
         _distanceKm := 0 }] := by
  unfold snapshotAtOrigin
  rw [NotificationScreen.callback_activeRequest_cons, NotificationScreen.callback_nil,
    NotificationScreen.nearbyNotifs_cons, NotificationScreen.nearbyNotifs_nil,
    NotificationScreen.reducer_activeRequest "u1" "u2" "a" (by decide) (by decide) 0
      (by norm_num) (by norm_num)]
  norm_num

/-- Counterexample of C3: for the user "u1" at the origin of the equator and the snapshot that
lists a request 10 km away before a request at the origin, the feed is not sorted ascending by
distance. -/
theorem feed_not_sorted :
    ¬ List.Chain' (fun a b : FeedItem => a._distanceKm ≤ b._distanceKm)
      (NotificationScreen.nearbyNotifs (some ⟨some 0, some 0⟩) (some "u1")
        (NotificationScreen.callback true snapshotFarFirst
          NotificationScreen.initialState).notifications) := by
  rw [feed_snapshotFarFirst, List.chain'_pair]
  norm_num

/-- The reduce callback yields nothing, or the record itself with a distance. -/
theorem NotificationScreen.reducer_cases (uc : Coords) (uid : Option String) (n : Notif) :
    NotificationScreen.reducer uc uid [] n = [] ∨
      ∃ d : ℝ, NotificationScreen.reducer uc uid [] n = [{ toNotif := n, _distanceKm := d }] := by
  unfold NotificationScreen.reducer
  cases hrc : n.requesterCoords with
  | none => exact Or.inl rfl
  | some rc =>
    obtain ⟨la, lo⟩ := uc
    obtain ⟨la2, lo2⟩ := rc
    by_cases g1 : (truthy n.status && n.status != some "active") = true
    · exact Or.inl (by simp [g1])
    · by_cases g2 : (truthy n.requesterId && truthy uid && n.requesterId == uid) = true
      · exact Or.inl (by simp [g1, g2])
      · simp only [if_neg g1, if_neg g2]
        cases la <;> cases lo <;> cases la2 <;> cases lo2 <;> first | exact Or.inl rfl | skip
        rename_i lat1 lon1 lat2 lon2
        by_cases hd : NotificationScreen.getDistance lat1 lon1 lat2 lon2 ≤ 20
        · exact Or.inr ⟨NotificationScreen.getDistance lat1 lon1 lat2 lon2, by simp [hd]⟩
        · exact Or.inl (by simp [hd])

/-- The reduce callback yields at most the record itself. -/
theorem NotificationScreen.reducer_map_sublist (uc : Coords) (uid : Option String) (n : Notif) :
    ((NotificationScreen.reducer uc uid [] n).map FeedItem.toNotif).Sublist [n] := by
  rcases NotificationScreen.reducer_cases uc uid n with h | ⟨d, h⟩
  · rw [h]; exact List.nil_sublist _
  · rw [h]; exact List.Sublist.refl _

/-- The records of the feed of a known origin are a sublist of the notifications. -/
theorem NotificationScreen.nearbyNotifs_map_sublist (uc : Coords) (uid : Option String)
    (ns : List Notif) :
    ((NotificationScreen.nearbyNotifs (some uc) uid ns).map FeedItem.toNotif).Sublist ns := by
  induction ns with
  | nil => simp [NotificationScreen.nearbyNotifs_nil]
  | cons n ns ih =>
    rw [NotificationScreen.nearbyNotifs_cons, List.map_append]
    exact (NotificationScreen.reducer_map_sublist uc uid n).append ih

/-- C3, as amended: for every origin, user and snapshot, the request feed keeps the order of
the snapshot and is not sorted by distance: the records of its items are a sublist of the
records that the snapshot lists, in the order of the snapshot. -/
theorem feed_keeps_snapshot_order (userCoords : Option Coords) (uid : Option String)
    (snap : Snapshot) (st : ScreenState) :
    ((NotificationScreen.nearbyNotifs userCoords uid
        (NotificationScreen.callback true snap st).notifications).map
      FeedItem.toNotif).Sublist (snapshotList snap) := by
  cases userCoords with
  | none => simp [NotificationScreen.nearbyNotifs]
  | some uc =>
    refine (NotificationScreen.nearbyNotifs_map_sublist uc uid _).trans ?_
    rw [NotificationScreen.callback_notifications]
    exact List.filter_sublist _

/-- Witness of C4: the user "u1" at the origin of the equator and a request of another user at
the origin; the item of the feed is not a request of "u1". -/
theorem feed_excludes_own_requests_witness :
    ("u1" : String) ≠ "" ∧
    itemAtOrigin ∈
      NotificationScreen.nearbyNotifs (some ⟨some 0, some 0⟩) (some "u1")
        (NotificationScreen.callback true snapshotAtOrigin
          NotificationScreen.initialState).notifications ∧
    itemAtOrigin.requesterId ≠ some "u1" := by
  have hmem : itemAtOrigin ∈
      NotificationScreen.nearbyNotifs (some ⟨some 0, some 0⟩) (some "u1")
        (NotificationScreen.callback true snapshotAtOrigin
          NotificationScreen.initialState).notifications := by
    rw [feed_snapshotAtOrigin]
    exact List.mem_singleton.mpr rfl
  exact ⟨by decide, hmem,
    feed_excludes_own_requests (some ⟨some 0, some 0⟩) "u1" (by decide) _ _ hmem⟩

/-- The callback drops a dismissed request of a snapshot. -/
theorem NotificationScreen.callback_dismissedRequest_cons (id rid : String) (la lo : ℝ)
    (val : List (String × Request)) (st : ScreenState) :
    (NotificationScreen.callback true (some ((id, dismissedRequest rid la lo) :: val)) st).notifications =
      (NotificationScreen.callback true (some val) st).notifications := by
  simp [NotificationScreen.callback, activeRequest, dismissedRequest]

/-- The feed of the user "u1" at the origin of the equator over the snapshot of a dismissed
request 2 km away and an active request 5 km away is the active request. -/
theorem feed_snapshotDismissed :
    NotificationScreen.nearbyNotifs (some ⟨some 0, some 0⟩) (some "u1")
        (NotificationScreen.callback true snapshotDismissed NotificationScreen.initialState).notifications =
      [itemNear] := by
  unfold snapshotDismissed itemNear
  rw [NotificationScreen.callback_dismissedRequest_cons,
    NotificationScreen.callback_activeRequest_cons, NotificationScreen.callback_nil,
    NotificationScreen.nearbyNotifs_cons, NotificationScreen.nearbyNotifs_nil,
    NotificationScreen.reducer_activeRequest "u1" "u2" "a" (by decide) (by decide) 5
      (by norm_num) (by norm_num)]
  norm_num

/-- Witness of C5: for the user "u1" at the origin of the equator and the snapshot of a
dismissed request 2 km away and an active request 5 km away, the feed is the active request
alone, and its status is "active". -/
theorem feed_items_active_witness :
    NotificationScreen.nearbyNotifs (some ⟨some 0, some 0⟩) (some "u1")
        (NotificationScreen.callback true snapshotDismissed
          NotificationScreen.initialState).notifications = [itemNear] ∧
    itemNear.status = some "active" := by
  have hmem : itemNear ∈
      NotificationScreen.nearbyNotifs (some ⟨some 0, some 0⟩) (some "u1")
        (NotificationScreen.callback true snapshotDismissed
          NotificationScreen.initialState).notifications := by
    rw [feed_snapshotDismissed]
    exact List.mem_singleton.mpr rfl
  exact ⟨feed_snapshotDismissed,
    feed_items_active (some ⟨some 0, some 0⟩) (some "u1") snapshotDismissed
      NotificationScreen.initialState _ hmem⟩

/-- Counterexample of C7: with no origin, the feed of the user "u1" over the snapshot of one
request at the origin of the equator is a value, the empty list, although the callback has
kept the request and the feed of the origin of the equator shows it. -/
theorem absent_origin_gives_empty_feed :
    NotificationScreen.nearbyNotifs none (some "u1")
        (NotificationScreen.callback true snapshotAtOrigin
          NotificationScreen.initialState).notifications = [] ∧
    (NotificationScreen.callback true snapshotAtOrigin
      NotificationScreen.initialState).notifications ≠ [] ∧
    NotificationScreen.nearbyNotifs (some ⟨some 0, some 0⟩) (some "u1")
        (NotificationScreen.callback true snapshotAtOrigin
          NotificationScreen.initialState).notifications ≠ [] := by
  refine ⟨rfl, ?_, ?_⟩
  · unfold snapshotAtOrigin
    rw [NotificationScreen.callback_activeRequest_cons]
    exact List.cons_ne_nil _ _
  · rw [feed_snapshotAtOrigin]
    exact List.cons_ne_nil _ _

/-- C7, as amended: when the origin is absent (userCoords is null), the computation of the
feed does not fail; it yields the empty feed for every user and every list of notifications. -/
theorem absent_origin_feed_empty (uid : Option String) (notifications : List Notif) :
    NotificationScreen.nearbyNotifs none uid notifications = [] := by
  rfl

/-! ### The radius test -/

/-- Membership in the result of the native hospital search. -/
theorem DonateBloodScreen.mem_nearby_native (lat lon : ℝ) (hs : List Hospital) (h : Hospital) :
    h ∈ DonateBloodScreen.nearby lat lon hs ↔
      h ∈ hs ∧ DonateBloodScreen.getDistance lat lon h.latitude h.longitude ≤ 20 := by
  simp [DonateBloodScreen.nearby, List.mem_filter]

/-- Membership in the result of the web hospital search. -/
theorem DonateBloodScreenWeb.mem_nearby_web (lat lon : ℝ) (hs : List Hospital) (item : HospitalKm) :
    item ∈ DonateBloodScreenWeb.nearby lat lon hs ↔
      item.toHospital ∈ hs ∧
        item.distanceKm =
          DonateBloodScreenWeb.getDistance lat lon item.latitude item.longitude ∧
        item.distanceKm ≤ 20 := by
  unfold DonateBloodScreenWeb.nearby
  rw [List.mem_mergeSort, List.mem_filter, List.mem_map]
  constructor
  · rintro ⟨⟨h, hh, rfl⟩, hd⟩
    exact ⟨hh, rfl, by simpa using hd⟩
  · rintro ⟨hh, hd, hle⟩
    refine ⟨⟨item.toHospital, hh, ?_⟩, by simpa using hle⟩
    obtain ⟨h, d⟩ := item
    simp only at hd
    rw [hd]

/-- C2: the radius test is inclusive and fixed at 20 km in the request feed and in both
hospital searches. A notification that passes the other guards of the feed is kept exactly
when its computed distance is at most 20, and a hospital of the directory is kept by the
native search and by the web search exactly when its computed distance is at most 20: a
candidate at exactly 20 is kept and every candidate above 20 is dropped. -/
theorem radius_test_inclusive_20 (lat lon : ℝ) (uid : String) (huid : uid ≠ "")
    (notifications : List Notif) (n : Notif) (lat2 lon2 : ℝ)
    (hospitalsData : List Hospital) (h : Hospital)
    (hn : n ∈ notifications) (hst : n.status = some "active")
    (hown : n.requesterId ≠ some uid)
    (hc : n.requesterCoords = some ⟨some lat2, some lon2⟩)
    (hh : h ∈ hospitalsData) :
    ((∃ item ∈ NotificationScreen.nearbyNotifs (some ⟨some lat, some lon⟩) (some uid)
          notifications, item.toNotif = n) ↔
        NotificationScreen.getDistance lat lon lat2 lon2 ≤ 20) ∧
    (h ∈ DonateBloodScreen.nearby lat lon hospitalsData ↔
        DonateBloodScreen.getDistance lat lon h.latitude h.longitude ≤ 20) ∧
    ((∃ item ∈ DonateBloodScreenWeb.nearby lat lon hospitalsData, item.toHospital = h) ↔
        DonateBloodScreenWeb.getDistance lat lon h.latitude h.longitude ≤ 20) := by
  refine ⟨⟨?_, ?_⟩, ?_, ⟨?_, ?_⟩⟩
  · rintro ⟨item, hitem, hto⟩
    obtain ⟨m, _, hm⟩ := (NotificationScreen.mem_nearbyNotifs _ _ _ _).mp hitem
    obtain ⟨hto2, _, _, lat1, lon1, a, b, huc, hmc, hd, hle⟩ :=
      NotificationScreen.mem_reducer _ _ _ _ hm
    simp only [Coords.mk.injEq, Option.some.injEq] at huc
    obtain ⟨rfl, rfl⟩ := huc
    rw [← hto2, hto, hc] at hmc
    simp only [Option.some.injEq, Coords.mk.injEq] at hmc
    obtain ⟨rfl, rfl⟩ := hmc
    rw [← hd]
    exact hle
  · intro hle
    refine ⟨{ toNotif := n,
              _distanceKm := NotificationScreen.getDistance lat lon lat2 lon2 }, ?_, rfl⟩
    rw [NotificationScreen.mem_nearbyNotifs]
    refine ⟨n, hn, ?_⟩
    rw [NotificationScreen.reducer_active lat lon uid huid n hst lat2 lon2 hc,
      if_pos ⟨hown, hle⟩]
    exact List.mem_singleton.mpr rfl
  · rw [DonateBloodScreen.mem_nearby_native]
    exact ⟨fun hx => hx.2, fun hx => ⟨hh, hx⟩⟩
  · rintro ⟨item, hitem, rfl⟩
    obtain ⟨_, hd, hle⟩ := (DonateBloodScreenWeb.mem_nearby_web _ _ _ _).mp hitem
    rw [← hd]
    exact hle
  · intro hle
    refine ⟨{ toHospital := h,
              distanceKm := DonateBloodScreenWeb.getDistance lat lon h.latitude h.longitude },
      ?_, rfl⟩
    rw [DonateBloodScreenWeb.mem_nearby_web]
    exact ⟨hh, rfl, hle⟩

/-- Witness of C2: from the origin of the equator, the request and the hospital at exactly
20 km are kept by the feed of "u1" and by both hospital searches, and the request and the
hospital at 20.0001 km are dropped. -/
theorem radius_test_inclusive_20_witness :
    NotificationScreen.getDistance 0 0 (degreesNorth 20) 0 = 20 ∧
    (∃ item ∈ NotificationScreen.nearbyNotifs (some ⟨some 0, some 0⟩) (some "u1")
        [notifNorth 20], item.toNotif = notifNorth 20) ∧
    hospitalNorth 20 ∈ DonateBloodScreen.nearby 0 0 [hospitalNorth 20] ∧
    (∃ item ∈ DonateBloodScreenWeb.nearby 0 0 [hospitalNorth 20],
        item.toHospital = hospitalNorth 20) ∧
    NotificationScreen.getDistance 0 0 (degreesNorth 20.0001) 0 = 20.0001 ∧
    (¬ ∃ item ∈ NotificationScreen.nearbyNotifs (some ⟨some 0, some 0⟩) (some "u1")
        [notifNorth 20.0001], item.toNotif = notifNorth 20.0001) ∧
    hospitalNorth 20.0001 ∉ DonateBloodScreen.nearby 0 0 [hospitalNorth 20.0001] ∧
    (¬ ∃ item ∈ DonateBloodScreenWeb.nearby 0 0 [hospitalNorth 20.0001],
        item.toHospital = hospitalNorth 20.0001) := by
  have d1 : NotificationScreen.getDistance 0 0 (degreesNorth 20) 0 = 20 :=
    getDistance_degreesNorth 20 (by norm_num) (by norm_num)
  have d2 : NotificationScreen.getDistance 0 0 (degreesNorth 20.0001) 0 = 20.0001 :=
    getDistance_degreesNorth 20.0001 (by norm_num) (by norm_num)
  have hne : (notifNorth 20).requesterId ≠ some "u1" := by
    simp [notifNorth, activeRequest]
  have hne2 : (notifNorth 20.0001).requesterId ≠ some "u1" := by
    simp [notifNorth, activeRequest]
  obtain ⟨a1, a2, a3⟩ := radius_test_inclusive_20 0 0 "u1" (by decide) [notifNorth 20]
    (notifNorth 20) (degreesNorth 20) 0 [hospitalNorth 20] (hospitalNorth 20)
    (List.mem_singleton.mpr rfl) rfl hne rfl (List.mem_singleton.mpr rfl)
  obtain ⟨b1, b2, b3⟩ := radius_test_inclusive_20 0 0 "u1" (by decide) [notifNorth 20.0001]
    (notifNorth 20.0001) (degreesNorth 20.0001) 0 [hospitalNorth 20.0001]
    (hospitalNorth 20.0001)
    (List.mem_singleton.mpr rfl) rfl hne2 rfl (List.mem_singleton.mpr rfl)
  have e1 : DonateBloodScreen.getDistance 0 0 (hospitalNorth 20).latitude
      (hospitalNorth 20).longitude = 20 := by
    rw [DonateBloodScreen.getDistance_native_eq]; exact d1
  have e2 : DonateBloodScreenWeb.getDistance 0 0 (hospitalNorth 20).latitude
      (hospitalNorth 20).longitude = 20 := by
    rw [DonateBloodScreenWeb.getDistance_web_eq]; exact d1
  have f1 : DonateBloodScreen.getDistance 0 0 (hospitalNorth 20.0001).latitude
      (hospitalNorth 20.0001).longitude = 20.0001 := by
    rw [DonateBloodScreen.getDistance_native_eq]; exact d2
  have f2 : DonateBloodScreenWeb.getDistance 0 0 (hospitalNorth 20.0001).latitude
      (hospitalNorth 20.0001).longitude = 20.0001 := by
    rw [DonateBloodScreenWeb.getDistance_web_eq]; exact d2
  refine ⟨d1, a1.mpr d1.le, a2.mpr e1.le, a3.mpr e2.le, d2, ?_, ?_, ?_⟩
  · intro hx
    have := b1.mp hx
    rw [d2] at this
    norm_num at this
  · intro hx
    have := b2.mp hx
    rw [f1] at this
    norm_num at this
  · intro hx
    have := b3.mp hx
    rw [f2] at this
    norm_num at this

/-! ### Records with malformed coordinates -/

/-- Elements on which a function yields nothing can be filtered out before a flatMap. -/
theorem flatMap_filter_of_nil {α β : Type} (p : α → Bool) (f : α → List β)
    (h : ∀ a, p a = false → f a = []) (l : List α) :
    (l.filter p).flatMap f = l.flatMap f := by
  induction l with
  | nil => rfl
  | cons a l ih =>
    cases hp : p a with
    | true => simp [List.filter_cons, hp, ih]
    | false => simp [List.filter_cons, hp, ih, h a hp]

/-- The notifications of a snapshot from which the records without numeric coordinates are
removed. -/
theorem snapshotList_filter (snap : Snapshot) :
    snapshotList (snap.map (List.filter (fun e => hasNumericCoords e.2))) =
      (snapshotList snap).filter (fun n => hasNumericCoords n.toRequest) := by
  cases snap with
  | none => rfl
  | some val =>
    simp only [snapshotList, Option.map_some', List.filter_map]
    rfl

/-- C6: a request record whose requesterCoords is missing, or whose latitude or longitude is
no number, never appears in the request feed and never makes the computation of the feed
fail: for every origin, user and snapshot, the feed (a total function) over the snapshot
equals the feed over the snapshot with those records removed, and every item of the feed has
numeric coordinates. -/
theorem feed_skips_malformed_coords (userCoords : Option Coords) (uid : Option String)
    (snap : Snapshot) (st : ScreenState) :
    NotificationScreen.nearbyNotifs userCoords uid
        (NotificationScreen.callback true snap st).notifications =
      NotificationScreen.nearbyNotifs userCoords uid
        (NotificationScreen.callback true
          (snap.map (List.filter (fun e => hasNumericCoords e.2))) st).notifications ∧
    (NotificationScreen.nearbyNotifs userCoords uid
        (NotificationScreen.callback true snap st).notifications).all
      (fun item => hasNumericCoords item.toRequest) = true := by
  cases userCoords with
  | none => exact ⟨rfl, rfl⟩
  | some uc =>
    constructor
    · rw [NotificationScreen.callback_notifications, NotificationScreen.callback_notifications,
        snapshotList_filter, NotificationScreen.nearbyNotifs_some,
        NotificationScreen.nearbyNotifs_some,
        ← flatMap_filter_of_nil (fun n : Notif => hasNumericCoords n.toRequest)
          (NotificationScreen.reducer uc uid [])
          (fun n hn => NotificationScreen.reducer_not_numeric uc uid n hn)
          ((snapshotList snap).filter (fun n => n.status == some "active")),
        List.filter_filter, List.filter_filter]
      simp only [Bool.and_comm]
    · rw [List.all_eq_true]
      intro item hitem
      obtain ⟨n, _, hn⟩ := (NotificationScreen.mem_nearbyNotifs _ _ _ _).mp hitem
      obtain ⟨hto, _, _, _, _, lat2, lon2, _, hc, _⟩ :=
        NotificationScreen.mem_reducer _ _ _ _ hn
      rw [← hto] at hc
      exact (hasNumericCoords_iff item.toRequest).mpr ⟨lat2, lon2, hc⟩

/-! ### Creation of a request -/

/-- A write under a key that the store does not hold appends the record. -/
theorem storeSet_fresh (store : Store) (key : String) (r : Request)
    (hfresh : ∀ e ∈ store, e.1 ≠ key) :
    storeSet store key r = store ++ [(key, r)] := by
  unfold storeSet
  have h : store.any (fun e => e.1 == key) = false := by
    rw [List.any_eq_false]
    intro e he
    simpa using hfresh e he
  rw [h]
  rfl

/-- The guard of handleSendNotification on the four fields of the form. -/
theorem RequestBloodScreen.form_guard (form : RequestBloodScreen.FormState) :
    (form.hospitalName == "" || form.hospitalLocation == "" ||
        !form.latitude.truthy || !form.longitude.truthy) = true ↔
      (form.hospitalName = "" ∨ form.hospitalLocation = "" ∨
        form.latitude = CoordText.empty ∨ form.longitude = CoordText.empty) := by
  have h1 : ∀ c : CoordText, c.truthy = false ↔ c = CoordText.empty := by
    intro c
    cases c <;> simp [CoordText.truthy]
  simp only [Bool.or_eq_true, beq_iff_eq, Bool.not_eq_true', h1, or_assoc]

/-- C15: creating a request fails with an error and performs no store write whenever
hospitalName, hospitalLocation, latitude or longitude is empty in the form, whenever the
profile record is absent and whenever no user is signed in. -/
theorem create_missing_input_fails (form : RequestBloodScreen.FormState)
    (currentUser : Option String) (key : String) (now : Nat) (setError : Option String)
    (store : Store)
    (h : form.hospitalName = "" ∨ form.hospitalLocation = "" ∨
      form.latitude = CoordText.empty ∨ form.longitude = CoordText.empty ∨
      form.userInfo = none ∨ currentUser = none) :
    (RequestBloodScreen.handleSendNotification form currentUser key now setError
        store).alert.title = "Error" ∧
    (RequestBloodScreen.handleSendNotification form currentUser key now setError
        store).store = store := by
  unfold RequestBloodScreen.handleSendNotification
  by_cases hg : (form.hospitalName == "" || form.hospitalLocation == "" ||
      !form.latitude.truthy || !form.longitude.truthy) = true
  · rw [if_pos hg]
    exact ⟨rfl, rfl⟩
  · rw [if_neg hg]
    rw [RequestBloodScreen.form_guard] at hg
    cases hu : form.userInfo with
    | none => exact ⟨rfl, rfl⟩
    | some userInfo =>
      cases hc : currentUser with
      | none => exact ⟨rfl, rfl⟩
      | some uid =>
        exfalso
        rcases h with h | h | h | h | h | h
        · exact hg (Or.inl h)
        · exact hg (Or.inr (Or.inl h))
        · exact hg (Or.inr (Or.inr (Or.inl h)))
        · exact hg (Or.inr (Or.inr (Or.inr h)))
        · rw [hu] at h; exact Option.noConfusion h
        · rw [hc] at h; exact Option.noConfusion h

/-- Witness of C15: the blank form, with a profile and a signed-in user, gives an error and
leaves the store as it is. -/
theorem create_missing_input_fails_witness :
    (blankForm (some exampleProfile)).hospitalName = "" ∧
    (RequestBloodScreen.handleSendNotification (blankForm (some exampleProfile)) (some "u1")
        "k1" 5 none [("k0", activeRequest "u2" 0 0)]).alert.title = "Error" ∧
    (RequestBloodScreen.handleSendNotification (blankForm (some exampleProfile)) (some "u1")
        "k1" 5 none [("k0", activeRequest "u2" 0 0)]).store =
      [("k0", activeRequest "u2" 0 0)] :=
  ⟨rfl, create_missing_input_fails (blankForm (some exampleProfile)) (some "u1") "k1" 5 none
    [("k0", activeRequest "u2" 0 0)] (Or.inl rfl)⟩

/-- What handleSendNotification does on a filled form with a profile, a signed-in user and a
store that accepts the write. -/
theorem RequestBloodScreen.handleSendNotification_ok (form : RequestBloodScreen.FormState)
    (userInfo : MedicalInfo) (uid key : String) (now : Nat) (store : Store)
    (hform : form.hospitalName ≠ "" ∧ form.hospitalLocation ≠ "" ∧
      form.latitude ≠ CoordText.empty ∧ form.longitude ≠ CoordText.empty)
    (hinfo : form.userInfo = some userInfo) :
    RequestBloodScreen.handleSendNotification form (some uid) key now none store =
      { alert := ⟨"Success", "Blood request sent successfully!"⟩,
        form := { form with hospitalName := "", hospitalLocation := "",
                            latitude := CoordText.empty, longitude := CoordText.empty,
                            loading := false },
        store := storeSet store key
          { title := some "Blood Request"
            requesterId := some uid
            requesterName := some (orDefault userInfo.fullName "Unknown")
            requesterBloodGroup := some (orDefault userInfo.bloodGroup "Unknown")
            requesterAge := some (orDefault userInfo.age "Unknown")
            requesterGender := some (orDefault userInfo.gender "Unknown")
            requesterAvailability := some (userInfo.availableToDonate.getD false)
            hospitalName := some (trim form.hospitalName)
            hospitalLocation := some (trim form.hospitalLocation)
            requesterCoords := some ⟨form.latitude.parseFloat, form.longitude.parseFloat⟩
            status := some "active"
            timestamp := some now
            notificationId := some key
            dismissedAt := none
            dismissedBy := none } } := by
  unfold RequestBloodScreen.handleSendNotification
  have hg : ¬ (form.hospitalName == "" || form.hospitalLocation == "" ||
      !form.latitude.truthy || !form.longitude.truthy) = true := by
    rw [RequestBloodScreen.form_guard]
    rintro (h | h | h | h)
    · exact hform.1 h
    · exact hform.2.1 h
    · exact hform.2.2.1 h
    · exact hform.2.2.2 h
  rw [if_neg hg, hinfo]

/-- The title of an error alert is not the title of a success alert. -/
theorem error_ne_success : ("Error" : String) ≠ "Success" := by decide

/-- C17: when creation succeeds and the key that the store has assigned is fresh, exactly one
new record is written, under that key: the record has status "active", a timestamp equal to
the clock reading, a notificationId equal to the key, a requesterId equal to the id of the
acting user, and neither dismissedAt nor dismissedBy; the existing records are unchanged. -/
theorem create_success_writes_one_record (form : RequestBloodScreen.FormState)
    (currentUser : Option String) (key : String) (now : Nat) (setError : Option String)
    (store : Store)
    (hsucc : (RequestBloodScreen.handleSendNotification form currentUser key now setError
      store).alert.title = "Success")
    (hfresh : ∀ e ∈ store, e.1 ≠ key) :
    ∃ (uid : String) (r : Request), currentUser = some uid ∧
      (RequestBloodScreen.handleSendNotification form currentUser key now setError
        store).store = store ++ [(key, r)] ∧
      r.status = some "active" ∧ r.timestamp = some now ∧ r.notificationId = some key ∧
      r.requesterId = some uid ∧ r.dismissedAt = none ∧ r.dismissedBy = none := by
  unfold RequestBloodScreen.handleSendNotification at hsucc ⊢
  by_cases hg : (form.hospitalName == "" || form.hospitalLocation == "" ||
      !form.latitude.truthy || !form.longitude.truthy) = true
  · rw [if_pos hg] at hsucc
    exact absurd hsucc error_ne_success
  · rw [if_neg hg] at hsucc ⊢
    cases hu : form.userInfo with
    | none => rw [hu] at hsucc; exact absurd hsucc error_ne_success
    | some userInfo =>
      rw [hu] at hsucc
      cases currentUser with
      | none => exact absurd hsucc error_ne_success
      | some uid =>
        cases setError with
        | some message => exact absurd hsucc error_ne_success
        | none =>
          refine ⟨uid, _, rfl, storeSet_fresh store key _ hfresh, rfl, rfl, rfl, rfl, rfl, rfl⟩

/-- Witness of C17: the filled form of the user "u1" with a profile, the fresh key "k1" and
the clock reading 5, on a store that holds one record. -/
theorem create_success_writes_one_record_witness :
    (RequestBloodScreen.handleSendNotification (filledForm (some exampleProfile) 0 0)
        (some "u1") "k1" 5 none storeOneActive).alert.title = "Success" ∧
    (∀ e ∈ storeOneActive, e.1 ≠ "k1") ∧
    ∃ (uid : String) (r : Request), some "u1" = some uid ∧
      (RequestBloodScreen.handleSendNotification (filledForm (some exampleProfile) 0 0)
        (some "u1") "k1" 5 none storeOneActive).store = storeOneActive ++ [("k1", r)] ∧
      r.status = some "active" ∧ r.timestamp = some 5 ∧ r.notificationId = some "k1" ∧
      r.requesterId = some uid ∧ r.dismissedAt = none ∧ r.dismissedBy = none := by
  have h1 : (RequestBloodScreen.handleSendNotification (filledForm (some exampleProfile) 0 0)
      (some "u1") "k1" 5 none storeOneActive).alert.title = "Success" := by
    rw [RequestBloodScreen.handleSendNotification_ok _ exampleProfile "u1" "k1" 5 _
      ⟨by decide, by decide, by simp [filledForm], by simp [filledForm]⟩ rfl]
  have h2 : ∀ e ∈ storeOneActive, e.1 ≠ "k1" := by
    intro e he
    rw [storeOneActive, List.mem_singleton] at he
    rw [he]
    decide
  exact ⟨h1, h2, create_success_writes_one_record _ _ _ _ _ _ h1 h2⟩

/-- The expression `v || d` is `d` when `v` is falsy. -/
theorem orDefault_of_falsy (v : Option String) (d : String) (h : truthy v = false) :
    orDefault v d = d := by
  cases v with
  | none => rfl
  | some s =>
    have hs : (s != "") = false := h
    simp [orDefault, hs]

/-- Counterexample of C14: the filled form of the user "u1" whose profile has no bloodGroup; the
creation succeeds and writes a record with the blood group "Unknown". -/
theorem create_without_bloodGroup_succeeds :
    profileWithoutBloodGroup.bloodGroup = none ∧
    (RequestBloodScreen.handleSendNotification (filledForm (some profileWithoutBloodGroup) 0 0)
        (some "u1") "k1" 5 none []).alert.title = "Success" ∧
    (RequestBloodScreen.handleSendNotification (filledForm (some profileWithoutBloodGroup) 0 0)
        (some "u1") "k1" 5 none []).store.map (fun e => (e.1, e.2.requesterBloodGroup)) =
      [("k1", some "Unknown")] := by
  rw [RequestBloodScreen.handleSendNotification_ok _ profileWithoutBloodGroup "u1" "k1" 5 _
    ⟨by decide, by decide, by simp [filledForm], by simp [filledForm]⟩ rfl]
  exact ⟨rfl, rfl, rfl⟩

/-- C14, as amended: creating a request with a profile that lacks bloodGroup or lacks fullName
does not fail. With a filled form, a signed-in user and a store that accepts the write under a
fresh key, the creation succeeds and writes one record, in which a blood group that the
profile lacks is "Unknown" and a name that the profile lacks is "Unknown". -/
theorem create_defaults_missing_profile_fields (form : RequestBloodScreen.FormState)
    (userInfo : MedicalInfo) (uid key : String) (now : Nat) (store : Store)
    (hform : form.hospitalName ≠ "" ∧ form.hospitalLocation ≠ "" ∧
      form.latitude ≠ CoordText.empty ∧ form.longitude ≠ CoordText.empty)
    (hinfo : form.userInfo = some userInfo)
    (hfresh : ∀ e ∈ store, e.1 ≠ key) :
    (RequestBloodScreen.handleSendNotification form (some uid) key now none
        store).alert.title = "Success" ∧
    ∃ r : Request,
      (RequestBloodScreen.handleSendNotification form (some uid) key now none store).store =
        store ++ [(key, r)] ∧
      (truthy userInfo.bloodGroup = false → r.requesterBloodGroup = some "Unknown") ∧
      (truthy userInfo.fullName = false → r.requesterName = some "Unknown") := by
  rw [RequestBloodScreen.handleSendNotification_ok form userInfo uid key now store hform hinfo]
  refine ⟨rfl, _, storeSet_fresh store key _ hfresh, ?_, ?_⟩
  · intro h
    show some (orDefault userInfo.bloodGroup "Unknown") = some "Unknown"
    rw [orDefault_of_falsy _ _ h]
  · intro h
    show some (orDefault userInfo.fullName "Unknown") = some "Unknown"
    rw [orDefault_of_falsy _ _ h]

/-- Witness of C14, as amended: the filled form of the user "u1" whose profile has no
bloodGroup, on the empty store. -/
theorem create_defaults_missing_profile_fields_witness :
    truthy profileWithoutBloodGroup.bloodGroup = false ∧
    (RequestBloodScreen.handleSendNotification (filledForm (some profileWithoutBloodGroup) 0 0)
        (some "u1") "k1" 5 none []).alert.title = "Success" ∧
    ∃ r : Request,
      (RequestBloodScreen.handleSendNotification (filledForm (some profileWithoutBloodGroup) 0 0)
        (some "u1") "k1" 5 none []).store = [] ++ [("k1", r)] ∧
      (truthy profileWithoutBloodGroup.bloodGroup = false →
        r.requesterBloodGroup = some "Unknown") ∧
      (truthy profileWithoutBloodGroup.fullName = false →
        r.requesterName = some "Unknown") :=
  ⟨rfl, create_defaults_missing_profile_fields (filledForm (some profileWithoutBloodGroup) 0 0)
    profileWithoutBloodGroup "u1" "k1" 5 []
    ⟨by decide, by decide, by simp [filledForm], by simp [filledForm]⟩ rfl
    (fun e he => absurd he (List.not_mem_nil e))⟩

/-- Counterexample of C16: the filled form of the user "u1" with the latitude 95 and the
longitude 200, outside the ranges of a GeoPoint; the creation succeeds and writes a record
with these coordinates. -/
theorem create_out_of_range_succeeds :
    ¬ ((95 : ℝ) ≤ 90) ∧ ¬ ((200 : ℝ) ≤ 180) ∧
    (RequestBloodScreen.handleSendNotification (filledForm (some exampleProfile) 95 200)
        (some "u1") "k1" 5 none []).alert.title = "Success" ∧
    (RequestBloodScreen.handleSendNotification (filledForm (some exampleProfile) 95 200)
        (some "u1") "k1" 5 none []).store.map (fun e => (e.1, e.2.requesterCoords)) =
      [("k1", some ⟨some 95, some 200⟩)] := by
  rw [RequestBloodScreen.handleSendNotification_ok _ exampleProfile "u1" "k1" 5 _
    ⟨by decide, by decide, by simp [filledForm], by simp [filledForm]⟩ rfl]
  exact ⟨by norm_num, by norm_num, rfl, rfl⟩

/-- C16, as amended: handleSendNotification validates no range. For all coordinates that the
form holds, inside or outside the ranges of a GeoPoint, with the names filled, a profile, a
signed-in user and a store that accepts the write under a fresh key, the creation succeeds and
writes one record with these coordinates. -/
theorem create_writes_coordinates_unchecked (form : RequestBloodScreen.FormState)
    (userInfo : MedicalInfo) (uid key : String) (now : Nat) (store : Store) (lat lon : ℝ)
    (hnames : form.hospitalName ≠ "" ∧ form.hospitalLocation ≠ "")
    (hlat : form.latitude = CoordText.text (some lat))
    (hlon : form.longitude = CoordText.text (some lon))
    (hinfo : form.userInfo = some userInfo)
    (hfresh : ∀ e ∈ store, e.1 ≠ key) :
    (RequestBloodScreen.handleSendNotification form (some uid) key now none
        store).alert.title = "Success" ∧
    ∃ r : Request,
      (RequestBloodScreen.handleSendNotification form (some uid) key now none store).store =
        store ++ [(key, r)] ∧
      r.requesterCoords = some ⟨some lat, some lon⟩ := by
  have hform : form.hospitalName ≠ "" ∧ form.hospitalLocation ≠ "" ∧
      form.latitude ≠ CoordText.empty ∧ form.longitude ≠ CoordText.empty := by
    refine ⟨hnames.1, hnames.2, ?_, ?_⟩
    · rw [hlat]; exact fun h => CoordText.noConfusion h
    · rw [hlon]; exact fun h => CoordText.noConfusion h
  rw [RequestBloodScreen.handleSendNotification_ok form userInfo uid key now store hform hinfo]
  refine ⟨rfl, _, storeSet_fresh store key _ hfresh, ?_⟩
  show some (Coords.mk form.latitude.parseFloat form.longitude.parseFloat) = _
  rw [hlat, hlon]
  rfl

/-- Witness of C16, as amended: the filled form with the latitude 95 and the longitude 200, on
the empty store. -/
theorem create_writes_coordinates_unchecked_witness :
    (RequestBloodScreen.handleSendNotification (filledForm (some exampleProfile) 95 200)
        (some "u1") "k1" 5 none []).alert.title = "Success" ∧
    ∃ r : Request,
      (RequestBloodScreen.handleSendNotification (filledForm (some exampleProfile) 95 200)
        (some "u1") "k1" 5 none []).store = [] ++ [("k1", r)] ∧
      r.requesterCoords = some ⟨some 95, some 200⟩ :=
  create_writes_coordinates_unchecked (filledForm (some exampleProfile) 95 200)
    exampleProfile "u1" "k1" 5 [] 95 200 ⟨by decide, by decide⟩ rfl rfl rfl
    (fun e he => absurd he (List.not_mem_nil e))

/-! ### Dismissal of a request -/

/-- The record under the updated key, after the entries under that key are patched. -/
theorem lookup_map_patch_self (store : Store) (key : String) (patch : Request → Request) :
    (store.map (fun e => if e.1 == key then (e.1, patch e.2) else e)).lookup key =
      (store.lookup key).map patch := by
  induction store with
  | nil => rfl
  | cons e es ih =>
    obtain ⟨k, b⟩ := e
    by_cases hk : k = key
    · subst hk
      simp only [List.map_cons, beq_self_eq_true, ↓reduceIte, List.lookup_cons, Option.map_some']
    · have h1 : (k == key) = false := by simpa using hk
      have h2 : (key == k) = false := by simpa using fun h : key = k => hk h.symm
      simp only [List.map_cons, h1, Bool.false_eq_true, ↓reduceIte, List.lookup_cons, h2]
      exact ih

/-- The records under the other keys, after the entries under a key are patched. -/
theorem lookup_map_patch_other (store : Store) (key k : String) (patch : Request → Request)
    (hk : k ≠ key) :
    (store.map (fun e => if e.1 == key then (e.1, patch e.2) else e)).lookup k =
      store.lookup k := by
  induction store with
  | nil => rfl
  | cons e es ih =>
    obtain ⟨k2, b⟩ := e
    by_cases h2 : k2 = key
    · subst h2
      have h3 : (k == k2) = false := by simpa using hk
      simp only [List.map_cons, beq_self_eq_true, ↓reduceIte, List.lookup_cons, h3]
      exact ih
    · have h1 : (k2 == key) = false := by simpa using h2
      simp only [List.map_cons, h1, Bool.false_eq_true, ↓reduceIte, List.lookup_cons]
      rw [ih]

/-- A store holds no entry under a key exactly when the lookup of the key finds nothing. -/
theorem any_key_eq_false_iff (store : Store) (key : String) :
    store.any (fun e => e.1 == key) = false ↔ store.lookup key = none := by
  induction store with
  | nil => exact ⟨fun _ => rfl, fun _ => rfl⟩
  | cons e es ih =>
    obtain ⟨k, b⟩ := e
    by_cases hk : k = key
    · subst hk
      simp only [List.any_cons, beq_self_eq_true, Bool.true_or, List.lookup_cons]
      exact ⟨fun h => Bool.noConfusion h, fun h => Option.noConfusion h⟩
    · have h1 : (k == key) = false := by simpa using hk
      have h2 : (key == k) = false := by simpa using fun h : key = k => hk h.symm
      simp only [List.any_cons, h1, Bool.false_or, List.lookup_cons, h2]
      exact ih

/-- An update under a key that the store holds patches the record under the key. -/
theorem lookup_storeUpdate_self (store : Store) (key : String) (patch : Request → Request)
    (r : Request) (h : store.lookup key = some r) :
    (storeUpdate store key patch).lookup key = some (patch r) := by
  unfold storeUpdate
  have hany : store.any (fun e => e.1 == key) = true := by
    cases hb : store.any (fun e => e.1 == key) with
    | true => rfl
    | false =>
      rw [any_key_eq_false_iff] at hb
      rw [hb] at h
      exact Option.noConfusion h
  rw [if_pos hany, lookup_map_patch_self, h]
  rfl

/-- An update under a key that the store does not hold appends a record with the patched
fields only. -/
theorem storeUpdate_absent (store : Store) (key : String) (patch : Request → Request)
    (h : store.lookup key = none) :
    storeUpdate store key patch = store ++ [(key, patch emptyRequest)] := by
  unfold storeUpdate
  rw [(any_key_eq_false_iff store key).mpr h]
  rfl

/-- What dismissNotification does for a signed-in user when the store accepts the update. -/
theorem NotificationScreen.dismissNotification_ok (notificationId uid : String) (now : Nat)
    (store : Store) :
    NotificationScreen.dismissNotification notificationId (some uid) now none store =
      { alert := ⟨"Success", "Notification dismissed"⟩, dismissing := false,
        store := storeUpdate store notificationId
          (NotificationScreen.dismissedFields now uid) } :=
  rfl

/-- The record "k0" of the store that holds one active request. -/
theorem storeOneActive_k0 : storeOneActive.lookup "k0" = some (activeRequest "u2" 0 0) := by
  simp only [storeOneActive, List.lookup_cons, beq_self_eq_true]

/-- The store that holds one active request has no record under "missing". -/
theorem storeOneActive_missing : storeOneActive.lookup "missing" = none := by
  have h : ("missing" == "k0") = false := by decide
  simp only [storeOneActive, List.lookup_cons, h, List.lookup_nil]

/-- The record "k0" of the store that holds one dismissed request. -/
theorem storeOneDismissed_k0 :
    storeOneDismissed.lookup "k0" = some (dismissedRequest "u3" 0 0) := by
  simp only [storeOneDismissed, List.lookup_cons, beq_self_eq_true]

/-- C18: for every existing request, active or not, and every signed-in acting user, the
original requester included, dismissNotification succeeds when the store accepts the update,
and leaves the record with status "dismissed", dismissedAt equal to the clock reading and
dismissedBy equal to the id of the acting user, its other fields as they were. -/
theorem dismiss_existing_succeeds (store : Store) (notificationId : String) (r : Request)
    (uid : String) (now : Nat) (hr : store.lookup notificationId = some r) :
    (NotificationScreen.dismissNotification notificationId (some uid) now none
        store).alert.title = "Success" ∧
    (NotificationScreen.dismissNotification notificationId (some uid) now none
        store).store.lookup notificationId =
      some { r with status := some "dismissed", dismissedAt := some now,
                    dismissedBy := some uid } := by
  rw [NotificationScreen.dismissNotification_ok]
  exact ⟨rfl, lookup_storeUpdate_self store notificationId _ r hr⟩

/-- Witness of C18: the requester "u2" dismisses the own active request "k0" at the clock
reading 7. -/
theorem dismiss_existing_succeeds_witness :
    storeOneActive.lookup "k0" = some (activeRequest "u2" 0 0) ∧
    (activeRequest "u2" 0 0).status = some "active" ∧
    (activeRequest "u2" 0 0).requesterId = some "u2" ∧
    (NotificationScreen.dismissNotification "k0" (some "u2") 7 none
        storeOneActive).alert.title = "Success" ∧
    (NotificationScreen.dismissNotification "k0" (some "u2") 7 none
        storeOneActive).store.lookup "k0" =
      some { activeRequest "u2" 0 0 with status := some "dismissed", dismissedAt := some 7,
                                         dismissedBy := some "u2" } :=
  ⟨storeOneActive_k0, rfl, rfl,
    dismiss_existing_succeeds storeOneActive "k0" _ "u2" 7 storeOneActive_k0⟩

/-- Counterexample of C19: the store holds no record under "missing"; the call of
dismissNotification on "missing" by the user "u1" shows a success and creates a record under
"missing" that has a status, a dismissedAt and a dismissedBy only. -/
theorem dismiss_missing_creates_record :
    storeOneActive.lookup "missing" = none ∧
    (NotificationScreen.dismissNotification "missing" (some "u1") 7 none
        storeOneActive).alert.title = "Success" ∧
    (NotificationScreen.dismissNotification "missing" (some "u1") 7 none
        storeOneActive).store =
      storeOneActive ++ [("missing",
        { emptyRequest with status := some "dismissed", dismissedAt := some 7,
                            dismissedBy := some "u1" })] := by
  rw [NotificationScreen.dismissNotification_ok]
  exact ⟨storeOneActive_missing, rfl,
    storeUpdate_absent storeOneActive "missing" _ storeOneActive_missing⟩

/-- C19, as amended: dismissNotification called by a signed-in user with an id that references
no existing record does not fail when the store accepts the update: it shows a success, leaves
the existing records as they are and creates a record under that id that has only the
status "dismissed", the dismissedAt of the clock reading and the dismissedBy of the user. -/
theorem dismiss_missing_succeeds (store : Store) (notificationId uid : String) (now : Nat)
    (h : store.lookup notificationId = none) :
    (NotificationScreen.dismissNotification notificationId (some uid) now none
        store).alert.title = "Success" ∧
    (NotificationScreen.dismissNotification notificationId (some uid) now none store).store =
      store ++ [(notificationId,
        { emptyRequest with status := some "dismissed", dismissedAt := some now,
                            dismissedBy := some uid })] := by
  rw [NotificationScreen.dismissNotification_ok]
  exact ⟨rfl, storeUpdate_absent store notificationId _ h⟩

/-- Witness of C19, as amended: the id "missing" on the store that holds "k0" only. -/
theorem dismiss_missing_succeeds_witness :
    storeOneActive.lookup "missing" = none ∧
    (NotificationScreen.dismissNotification "missing" (some "u1") 7 none
        storeOneActive).alert.title = "Success" ∧
    (NotificationScreen.dismissNotification "missing" (some "u1") 7 none
        storeOneActive).store =
      storeOneActive ++ [("missing",
        { emptyRequest with status := some "dismissed", dismissedAt := some 7,
                            dismissedBy := some "u1" })] :=
  ⟨storeOneActive_missing,
    dismiss_missing_succeeds storeOneActive "missing" "u1" 7 storeOneActive_missing⟩

/-- Counterexample of C20: the request "k0" was dismissed at the clock reading 2 by "u4"; a
second call of dismissNotification at the clock reading 7 by "u5" succeeds and leaves
dismissedAt 7 and dismissedBy "u5". -/
theorem dismiss_twice_overwrites :
    (storeOneDismissed.lookup "k0").map (fun r => (r.status, r.dismissedAt, r.dismissedBy)) =
      some (some "dismissed", some 2, some "u4") ∧
    (NotificationScreen.dismissNotification "k0" (some "u5") 7 none
        storeOneDismissed).alert.title = "Success" ∧
    ((NotificationScreen.dismissNotification "k0" (some "u5") 7 none
        storeOneDismissed).store.lookup "k0").map
        (fun r => (r.status, r.dismissedAt, r.dismissedBy)) =
      some (some "dismissed", some 7, some "u5") := by
  rw [NotificationScreen.dismissNotification_ok,
    lookup_storeUpdate_self storeOneDismissed "k0" _ _ storeOneDismissed_k0,
    storeOneDismissed_k0]
  exact ⟨rfl, rfl, rfl⟩

/-- C20, as amended: a call of dismissNotification on a request that is already dismissed is
not idempotent. For every record with status "dismissed", a second call by a signed-in user,
when the store accepts the update, succeeds, leaves the status "dismissed" and the other
fields, and overwrites dismissedAt with the new clock reading and dismissedBy with the id of
the new acting user. -/
theorem dismiss_dismissed_overwrites (store : Store) (notificationId : String) (r : Request)
    (uid : String) (now : Nat) (hr : store.lookup notificationId = some r)
    (hst : r.status = some "dismissed") :
    (NotificationScreen.dismissNotification notificationId (some uid) now none
        store).alert.title = "Success" ∧
    (NotificationScreen.dismissNotification notificationId (some uid) now none
        store).store.lookup notificationId =
      some { r with dismissedAt := some now, dismissedBy := some uid } := by
  rw [NotificationScreen.dismissNotification_ok,
    lookup_storeUpdate_self store notificationId _ r hr]
  refine ⟨rfl, ?_⟩
  show some ({ r with status := some "dismissed", dismissedAt := some now,
                      dismissedBy := some uid } : Request) = _
  rw [← hst]

/-- Witness of C20, as amended: the second dismissal of "k0" at the clock reading 7 by "u5". -/
theorem dismiss_dismissed_overwrites_witness :
    storeOneDismissed.lookup "k0" = some (dismissedRequest "u3" 0 0) ∧
    (dismissedRequest "u3" 0 0).status = some "dismissed" ∧
    (NotificationScreen.dismissNotification "k0" (some "u5") 7 none
        storeOneDismissed).alert.title = "Success" ∧
    (NotificationScreen.dismissNotification "k0" (some "u5") 7 none
        storeOneDismissed).store.lookup "k0" =
      some { dismissedRequest "u3" 0 0 with dismissedAt := some 7,
                                            dismissedBy := some "u5" } :=
  ⟨storeOneDismissed_k0, rfl,
    dismiss_dismissed_overwrites storeOneDismissed "k0" _ "u5" 7 storeOneDismissed_k0 rfl⟩

/-! ### The distance as an arc -/

/-- On the square roots of a number of `[0, 1]` and of its complement `atan2` is the arcsine
of the first root. -/
theorem atan2_sqrt_eq_arcsin (a : ℝ) (h0 : 0 ≤ a) (h1 : a ≤ 1) :
    atan2 (Real.sqrt a) (Real.sqrt (1 - a)) = Real.arcsin (Real.sqrt a) := by
  by_cases ha : a = 1
  · subst ha
    have hpi := Real.pi_pos
    simp [atan2, Real.arcsin_one]
  · have hlt : a < 1 := lt_of_le_of_ne h1 ha
    have hs0 : 0 ≤ Real.sqrt a := Real.sqrt_nonneg a
    have hs1 : Real.sqrt a < 1 := by
      rw [Real.sqrt_lt' (by norm_num)]
      simpa using hlt
    have hsin : Real.sin (Real.arcsin (Real.sqrt a)) = Real.sqrt a :=
      Real.sin_arcsin (by linarith) hs1.le
    have hcos : Real.cos (Real.arcsin (Real.sqrt a)) = Real.sqrt (1 - a) := by
      rw [Real.cos_arcsin, Real.sq_sqrt h0]
    have hup : Real.arcsin (Real.sqrt a) < Real.pi / 2 := Real.arcsin_lt_pi_div_two.mpr hs1
    have hdown : -(Real.pi / 2) < Real.arcsin (Real.sqrt a) := by
      have := Real.arcsin_nonneg.mpr hs0
      have hpi := Real.pi_pos
      linarith
    calc atan2 (Real.sqrt a) (Real.sqrt (1 - a))
        = atan2 (Real.sin (Real.arcsin (Real.sqrt a)))
            (Real.cos (Real.arcsin (Real.sqrt a))) := by rw [hsin, hcos]
      _ = Real.arcsin (Real.sqrt a) := atan2_sin_cos hdown hup

/-- The haversine term lies in `[0, 1]`. -/
theorem NotificationScreen.haversineTerm_mem (lat1 lon1 lat2 lon2 : ℝ) :
    0 ≤ NotificationScreen.haversineTerm lat1 lon1 lat2 lon2 ∧
      NotificationScreen.haversineTerm lat1 lon1 lat2 lon2 ≤ 1 :=
  ⟨haversine_term_nonneg lat1 lon1 lat2 lon2, haversine_term_le_one lat1 lon1 lat2 lon2⟩

/-- The function getDistance is the radius times the central angle, twice the arcsine of the
root of the haversine term. -/
theorem NotificationScreen.getDistance_eq_arcsin (lat1 lon1 lat2 lon2 : ℝ) :
    NotificationScreen.getDistance lat1 lon1 lat2 lon2 =
      6371 * (2 * Real.arcsin
        (Real.sqrt (NotificationScreen.haversineTerm lat1 lon1 lat2 lon2))) := by
  obtain ⟨h0, h1⟩ := NotificationScreen.haversineTerm_mem lat1 lon1 lat2 lon2
  rw [← atan2_sqrt_eq_arcsin _ h0 h1]
  rfl

/-- Along a meridian, northwards over at most half a turn, getDistance is the radius times
the difference of latitude in radians. -/
theorem NotificationScreen.getDistance_north (lat lon d : ℝ) (h0 : 0 ≤ d) (h1 : d ≤ 180) :
    NotificationScreen.getDistance lat lon (lat + d) lon = 6371 * (d * Real.pi / 180) := by
  have hpi := Real.pi_pos
  have ht0 : 0 ≤ d * Real.pi / 180 / 2 := by positivity
  have ht1 : d * Real.pi / 180 / 2 ≤ Real.pi / 2 := by
    have : d * Real.pi ≤ 180 * Real.pi := mul_le_mul_of_nonneg_right h1 hpi.le
    linarith
  have ha : NotificationScreen.haversineTerm lat lon (lat + d) lon =
      Real.sin (d * Real.pi / 180 / 2) ^ 2 := by
    unfold NotificationScreen.haversineTerm
    have e1 : (lat + d - lat) * Real.pi / 180 / 2 = d * Real.pi / 180 / 2 := by ring
    simp [e1]
  rw [NotificationScreen.getDistance_eq_arcsin, ha,
    Real.sqrt_sq (Real.sin_nonneg_of_nonneg_of_le_pi ht0 (by linarith)),
    Real.arcsin_sin (by linarith) ht1]
  ring

/-- C12: getDistance increases with the angular separation. For all points p, q1 and q2, if
the haversine term of p and q1 is at most the haversine term of p and q2 (the central angle,
twice the arcsine of the root of the term, is then at most the other one), then the distance
from p to q1 is at most the distance from p to q2; and along one meridian the distance from a
fixed point grows with the difference of latitude between 0 and 180 degrees. -/
theorem getDistance_mono_angular (lat1 lon1 lat2 lon2 lat3 lon3 d1 d2 : ℝ)
    (h : NotificationScreen.haversineTerm lat1 lon1 lat2 lon2 ≤
      NotificationScreen.haversineTerm lat1 lon1 lat3 lon3)
    (hd0 : 0 ≤ d1) (hd : d1 ≤ d2) (hd2 : d2 ≤ 180) :
    NotificationScreen.getDistance lat1 lon1 lat2 lon2 ≤
        NotificationScreen.getDistance lat1 lon1 lat3 lon3 ∧
    NotificationScreen.getDistance lat1 lon1 (lat1 + d1) lon1 ≤
        NotificationScreen.getDistance lat1 lon1 (lat1 + d2) lon1 := by
  constructor
  · rw [NotificationScreen.getDistance_eq_arcsin, NotificationScreen.getDistance_eq_arcsin]
    have := Real.monotone_arcsin (Real.sqrt_le_sqrt h)
    linarith
  · rw [NotificationScreen.getDistance_north lat1 lon1 d1 hd0 (hd.trans hd2),
      NotificationScreen.getDistance_north lat1 lon1 d2 (hd0.trans hd) hd2]
    have hpi := Real.pi_pos
    have : d1 * Real.pi ≤ d2 * Real.pi := mul_le_mul_of_nonneg_right hd hpi.le
    linarith

/-- Witness of C12: from the origin of the equator, the origin itself against the point 5 km
north, and the differences of latitude 10 and 20 degrees. -/
theorem getDistance_mono_angular_witness :
    NotificationScreen.haversineTerm 0 0 0 0 ≤
      NotificationScreen.haversineTerm 0 0 (degreesNorth 5) 0 ∧
    NotificationScreen.getDistance 0 0 0 0 ≤
        NotificationScreen.getDistance 0 0 (degreesNorth 5) 0 ∧
    NotificationScreen.getDistance 0 0 (0 + 10) 0 ≤
        NotificationScreen.getDistance 0 0 (0 + 20) 0 := by
  have h : NotificationScreen.haversineTerm 0 0 0 0 ≤
      NotificationScreen.haversineTerm 0 0 (degreesNorth 5) 0 := by
    have h0 : NotificationScreen.haversineTerm 0 0 0 0 = 0 := by
      simp [NotificationScreen.haversineTerm]
    rw [h0]
    exact (NotificationScreen.haversineTerm_mem 0 0 (degreesNorth 5) 0).1
  exact ⟨h, getDistance_mono_angular 0 0 0 0 (degreesNorth 5) 0 10 20 h
    (by norm_num) (by norm_num) (by norm_num)⟩

/-- C13: the three copies of getDistance, of the request feed, of the native hospital search
and of the web hospital search, compute the same function on all inputs, and this function is
the haversine formula of the specification with R = 6371. -/
theorem getDistance_copies_eq_spec (lat1 lon1 lat2 lon2 : ℝ) :
    NotificationScreen.getDistance lat1 lon1 lat2 lon2 = Spec.distanceKm lat1 lon1 lat2 lon2 ∧
    DonateBloodScreen.getDistance lat1 lon1 lat2 lon2 = Spec.distanceKm lat1 lon1 lat2 lon2 ∧
    DonateBloodScreenWeb.getDistance lat1 lon1 lat2 lon2 =
      Spec.distanceKm lat1 lon1 lat2 lon2 := by
  have h : NotificationScreen.getDistance lat1 lon1 lat2 lon2 =
      Spec.distanceKm lat1 lon1 lat2 lon2 := by
    simp only [NotificationScreen.getDistance, Spec.distanceKm, Spec.radians, mul_assoc]
  exact ⟨h, (DonateBloodScreen.getDistance_native_eq lat1 lon1 lat2 lon2).trans h,
    (DonateBloodScreenWeb.getDistance_web_eq lat1 lon1 lat2 lon2).trans h⟩

/-! ### London to Paris -/

/-- The sine of a small positive angle between two decimal bounds. -/
theorem sin_between (x lo hi : ℝ) (h0 : 0 < lo) (hlo : lo ≤ x) (hhi : x ≤ hi) (h1 : hi ≤ 1) :
    lo - hi ^ 3 / 4 ≤ Real.sin x ∧ Real.sin x ≤ hi := by
  have hx0 : 0 < x := lt_of_lt_of_le h0 hlo
  have h := Real.sin_gt_sub_cube hx0 (hhi.trans h1)
  have h3 : x ^ 3 ≤ hi ^ 3 := pow_le_pow_left₀ hx0.le hhi 3
  have h4 := Real.sin_le hx0.le
  constructor
  · linarith
  · linarith

/-- The haversine term of London (51.5074, -0.1278) and Paris (48.8566, 2.3522), written with
the half differences and the product of the cosines as a sum. -/
theorem haversineTerm_london_paris_eq :
    NotificationScreen.haversineTerm 51.5074 (-0.1278) 48.8566 2.3522 =
      Real.sin (2.6508 * Real.pi / 360) ^ 2 +
        (Real.cos (2.6508 * Real.pi / 180) - Real.sin (10.364 * Real.pi / 180)) / 2 *
          Real.sin (2.48 * Real.pi / 360) ^ 2 := by
  unfold NotificationScreen.haversineTerm
  have e1 : ((48.8566 - 51.5074) * Real.pi / 180) / 2 = -(2.6508 * Real.pi / 360) := by
    ring
  have e2 : ((2.3522 - (-0.1278)) * Real.pi / 180) / 2 = 2.48 * Real.pi / 360 := by
    ring
  have e3 : (2.6508 * Real.pi / 180 : ℝ) = 51.5074 * Real.pi / 180 - 48.8566 * Real.pi / 180 := by
    ring
  have e4 : (10.364 * Real.pi / 180 : ℝ) + Real.pi / 2 =
      51.5074 * Real.pi / 180 + 48.8566 * Real.pi / 180 := by
    ring
  have e5 : Real.cos (51.5074 * Real.pi / 180) * Real.cos (48.8566 * Real.pi / 180) =
      (Real.cos (2.6508 * Real.pi / 180) - Real.sin (10.364 * Real.pi / 180)) / 2 := by
    have h1 := Real.cos_sub (51.5074 * Real.pi / 180) (48.8566 * Real.pi / 180)
    have h2 := Real.cos_add (51.5074 * Real.pi / 180) (48.8566 * Real.pi / 180)
    have h3 := Real.cos_add_pi_div_two (10.364 * Real.pi / 180)
    rw [e4] at h3
    rw [e3]
    linarith
  simp only [e1, e2, e5, Real.sin_neg, neg_sq]

/-- The sine of half the difference of latitude of London and Paris. -/
theorem sin_half_dLat_london_paris :
    (0.023128 : ℝ) ≤ Real.sin (2.6508 * Real.pi / 360) ∧
      Real.sin (2.6508 * Real.pi / 360) ≤ (0.0231327 : ℝ) := by
  have hlo : (3.1415 : ℝ) < Real.pi := Real.pi_gt_d4
  have hhi : Real.pi < (3.1416 : ℝ) := Real.pi_lt_d4
  obtain ⟨slo, shi⟩ := sin_between (2.6508 * Real.pi / 360) 0.0231319 0.0231327
    (by norm_num) (by linarith) (by linarith) (by norm_num)
  refine ⟨le_trans (by norm_num) slo, shi⟩

/-- The sine of half the difference of longitude of London and Paris. -/
theorem sin_half_dLon_london_paris :
    (0.021638 : ℝ) ≤ Real.sin (2.48 * Real.pi / 360) ∧
      Real.sin (2.48 * Real.pi / 360) ≤ (0.0216422 : ℝ) := by
  have hlo : (3.1415 : ℝ) < Real.pi := Real.pi_gt_d4
  have hhi : Real.pi < (3.1416 : ℝ) := Real.pi_lt_d4
  obtain ⟨slo, shi⟩ := sin_between (2.48 * Real.pi / 360) 0.0216414 0.0216422
    (by norm_num) (by linarith) (by linarith) (by norm_num)
  refine ⟨le_trans (by norm_num) slo, shi⟩

/-- The product of the cosines of the latitudes of London and Paris, as half a sum. -/
theorem cos_product_london_paris :
    (0.409 : ℝ) ≤
        (Real.cos (2.6508 * Real.pi / 180) - Real.sin (10.364 * Real.pi / 180)) / 2 ∧
      (Real.cos (2.6508 * Real.pi / 180) - Real.sin (10.364 * Real.pi / 180)) / 2 ≤
        (0.4103 : ℝ) := by
  have hlo : (3.1415 : ℝ) < Real.pi := Real.pi_gt_d4
  have hhi : Real.pi < (3.1416 : ℝ) := Real.pi_lt_d4
  obtain ⟨sylo, syhi⟩ := sin_between (10.364 * Real.pi / 180) 0.1808805 0.1808864
    (by norm_num) (by linarith) (by linarith) (by norm_num)
  have tylo : (0.1794 : ℝ) ≤ Real.sin (10.364 * Real.pi / 180) :=
    le_trans (by norm_num) sylo
  have c1hi : Real.cos (2.6508 * Real.pi / 180) ≤ 1 := Real.cos_le_one _
  have h := Real.one_sub_sq_div_two_le_cos (x := 2.6508 * Real.pi / 180)
  have h2 : (2.6508 * Real.pi / 180) ^ 2 ≤ (0.0462654 : ℝ) ^ 2 :=
    pow_le_pow_left₀ (by positivity) (by linarith) 2
  have h3 : (1 : ℝ) - (0.0462654 : ℝ) ^ 2 / 2 ≤ Real.cos (2.6508 * Real.pi / 180) := by
    linarith
  have c1lo : (0.9989 : ℝ) ≤ Real.cos (2.6508 * Real.pi / 180) :=
    le_trans (by norm_num) h3
  constructor
  · linarith
  · linarith

/-- A sum of a square and a product of a factor and a square, between the bounds that the
bounds of its parts give. -/
theorem sq_add_mul_sq_between {s t c s0 s1 t0 t1 c0 c1 : ℝ} (hs0 : 0 ≤ s0) (ht0 : 0 ≤ t0)
    (hc0 : 0 ≤ c0) (hs : s0 ≤ s ∧ s ≤ s1) (ht : t0 ≤ t ∧ t ≤ t1) (hc : c0 ≤ c ∧ c ≤ c1) :
    s0 ^ 2 + c0 * t0 ^ 2 ≤ s ^ 2 + c * t ^ 2 ∧ s ^ 2 + c * t ^ 2 ≤ s1 ^ 2 + c1 * t1 ^ 2 := by
  have q1lo : s0 ^ 2 ≤ s ^ 2 := pow_le_pow_left₀ hs0 hs.1 2
  have q1hi : s ^ 2 ≤ s1 ^ 2 := pow_le_pow_left₀ (hs0.trans hs.1) hs.2 2
  have q2lo : t0 ^ 2 ≤ t ^ 2 := pow_le_pow_left₀ ht0 ht.1 2
  have q2hi : t ^ 2 ≤ t1 ^ 2 := pow_le_pow_left₀ (ht0.trans ht.1) ht.2 2
  have plo : c0 * t0 ^ 2 ≤ c * t ^ 2 := mul_le_mul hc.1 q2lo (sq_nonneg _) (hc0.trans hc.1)
  have phi : c * t ^ 2 ≤ c1 * t1 ^ 2 :=
    mul_le_mul hc.2 q2hi (sq_nonneg _) ((hc0.trans hc.1).trans hc.2)
  constructor
  · linarith
  · linarith

/-- The haversine term of London and Paris between two decimal bounds. -/
theorem haversineTerm_london_paris :
    0.000726 ≤ NotificationScreen.haversineTerm 51.5074 (-0.1278) 48.8566 2.3522 ∧
      NotificationScreen.haversineTerm 51.5074 (-0.1278) 48.8566 2.3522 ≤ 0.000728 := by
  rw [haversineTerm_london_paris_eq]
  obtain ⟨hlo, hhi⟩ := sq_add_mul_sq_between (by norm_num) (by norm_num) (by norm_num)
    sin_half_dLat_london_paris sin_half_dLon_london_paris cos_product_london_paris
  exact ⟨le_trans (by norm_num) hlo, le_trans hhi (by norm_num)⟩

/-- C11: getDistance from London (51.5074, -0.1278) to Paris (48.8566, 2.3522) lies within
2 km of 343.5 km, in the interval from 341.5 to 345.5. -/
theorem getDistance_london_paris :
    341.5 ≤ NotificationScreen.getDistance 51.5074 (-0.1278) 48.8566 2.3522 ∧
      NotificationScreen.getDistance 51.5074 (-0.1278) 48.8566 2.3522 ≤ 345.5 := by
  obtain ⟨alo, ahi⟩ := haversineTerm_london_paris
  have hpi : (3.1415 : ℝ) < Real.pi := Real.pi_gt_d4
  have ha0 : 0 ≤ NotificationScreen.haversineTerm 51.5074 (-0.1278) 48.8566 2.3522 := by
    linarith
  have hr0 := Real.sqrt_nonneg (NotificationScreen.haversineTerm 51.5074 (-0.1278) 48.8566 2.3522)
  have hrlo : (0.0269 : ℝ) ≤
      Real.sqrt (NotificationScreen.haversineTerm 51.5074 (-0.1278) 48.8566 2.3522) := by
    apply Real.le_sqrt_of_sq_le
    norm_num at alo ⊢
    linarith
  have hrhi : Real.sqrt (NotificationScreen.haversineTerm 51.5074 (-0.1278) 48.8566 2.3522) ≤
      (0.027 : ℝ) := by
    rw [Real.sqrt_le_left (by norm_num)]
    norm_num at ahi ⊢
    linarith
  rw [NotificationScreen.getDistance_eq_arcsin]
  constructor
  · have h1 : (0.0269 : ℝ) ≤ Real.arcsin
        (Real.sqrt (NotificationScreen.haversineTerm 51.5074 (-0.1278) 48.8566 2.3522)) := by
      rw [Real.le_arcsin_iff_sin_le ⟨by linarith, by linarith⟩ ⟨by linarith, by linarith⟩]
      exact (Real.sin_le (by norm_num)).trans hrlo
    norm_num at h1 ⊢
    linarith
  · have h2 : Real.arcsin
        (Real.sqrt (NotificationScreen.haversineTerm 51.5074 (-0.1278) 48.8566 2.3522)) ≤
        (0.0271 : ℝ) := by
      rw [Real.arcsin_le_iff_le_sin ⟨by linarith, by linarith⟩ ⟨by linarith, by linarith⟩]
      obtain ⟨slo, _⟩ := sin_between 0.0271 0.0271 0.0271
        (by norm_num) (le_refl _) (le_refl _) (by norm_num)
      norm_num at slo ⊢
      linarith
    norm_num at h2 ⊢
    linarith

/-! ### Bounds of the distance -/

/-- In exact arithmetic, for all real inputs of getDistance, without a condition on their
range: the haversine term `a` satisfies 0 ≤ a ≤ 1, the radicands `a` and `1 - a` of the two
square roots are not negative, and the value of the formula, in the copy of the request feed
and in the copy of the web hospital search, is at most π · 6371 km. This is a fact of the
formula and not of the doubles of the program: the bound `a ≤ 1` has no margin at antipodal
points (`haversineTerm_antipodal`), and the computed `a` exceeds it there. -/
theorem getDistance_le_half_circumference (lat1 lon1 lat2 lon2 : ℝ) :
    0 ≤ NotificationScreen.haversineTerm lat1 lon1 lat2 lon2 ∧
    NotificationScreen.haversineTerm lat1 lon1 lat2 lon2 ≤ 1 ∧
    0 ≤ 1 - NotificationScreen.haversineTerm lat1 lon1 lat2 lon2 ∧
    NotificationScreen.getDistance lat1 lon1 lat2 lon2 ≤ Real.pi * 6371 ∧
    DonateBloodScreenWeb.getDistance lat1 lon1 lat2 lon2 ≤ Real.pi * 6371 := by
  obtain ⟨h0, h1⟩ := NotificationScreen.haversineTerm_mem lat1 lon1 lat2 lon2
  have h : NotificationScreen.getDistance lat1 lon1 lat2 lon2 ≤ Real.pi * 6371 := by
    rw [NotificationScreen.getDistance_eq_arcsin]
    have := Real.arcsin_le_pi_div_two
      (Real.sqrt (NotificationScreen.haversineTerm lat1 lon1 lat2 lon2))
    linarith
  refine ⟨h0, h1, by linarith, h, ?_⟩
  rw [DonateBloodScreenWeb.getDistance_web_eq]
  exact h

/-! ### The distance on the computed haversine term -/

/-- On a number that is not negative `Math.sqrt` is the real square root. -/
theorem Math.sqrt_eq_some {x : ℝ} (h : 0 ≤ x) : Math.sqrt x = some (Real.sqrt x) := by
  unfold Math.sqrt
  rw [if_neg (not_lt.mpr h)]

/-- On a negative number `Math.sqrt` is NaN. -/
theorem Math.sqrt_eq_none {x : ℝ} (h : x < 0) : Math.sqrt x = none := by
  unfold Math.sqrt
  rw [if_pos h]

/-- On a value of `a` in `[0, 1]` line 44 of getDistance returns a number. -/
theorem NotificationScreen.distanceOfTerm_of_mem {a : ℝ} (h0 : 0 ≤ a) (h1 : a ≤ 1) :
    NotificationScreen.distanceOfTerm a =
      some (6371 * (2 * atan2 (Real.sqrt a) (Real.sqrt (1 - a)))) := by
  unfold NotificationScreen.distanceOfTerm
  rw [Math.sqrt_eq_some h0, Math.sqrt_eq_some (by linarith : (0 : ℝ) ≤ 1 - a)]

/-- On the exact haversine term of two points line 44 of getDistance returns the value of
`getDistance`: the two models agree wherever the term is exact. -/
theorem NotificationScreen.distanceOfTerm_haversineTerm (lat1 lon1 lat2 lon2 : ℝ) :
    NotificationScreen.distanceOfTerm (NotificationScreen.haversineTerm lat1 lon1 lat2 lon2) =
      some (NotificationScreen.getDistance lat1 lon1 lat2 lon2) := by
  obtain ⟨h0, h1⟩ := NotificationScreen.haversineTerm_mem lat1 lon1 lat2 lon2
  rw [NotificationScreen.distanceOfTerm_of_mem h0 h1]
  rfl

/-- On a value of `a` above 1 line 44 of getDistance returns NaN: `Math.sqrt(1 - a)` is NaN. -/
theorem NotificationScreen.distanceOfTerm_above_one {a : ℝ} (h : 1 < a) :
    NotificationScreen.distanceOfTerm a = none := by
  unfold NotificationScreen.distanceOfTerm
  rw [Math.sqrt_eq_some (by linarith : (0 : ℝ) ≤ a), Math.sqrt_eq_none (by linarith : 1 - a < 0)]

/-- On a negative value of `a` line 44 of getDistance returns NaN: `Math.sqrt(a)` is NaN. -/
theorem NotificationScreen.distanceOfTerm_negative {a : ℝ} (h : a < 0) :
    NotificationScreen.distanceOfTerm a = none := by
  unfold NotificationScreen.distanceOfTerm
  rw [Math.sqrt_eq_none h]

/-- Line 44 of getDistance returns a number exactly on the values of `a` in `[0, 1]`, and that
number is the radius times twice the arcsine of the root of `a`. -/
theorem NotificationScreen.distanceOfTerm_eq_some_iff (a d : ℝ) :
    NotificationScreen.distanceOfTerm a = some d ↔
      (0 ≤ a ∧ a ≤ 1) ∧ d = 6371 * (2 * Real.arcsin (Real.sqrt a)) := by
  constructor
  · intro h
    by_cases h0 : 0 ≤ a
    · by_cases h1 : a ≤ 1
      · rw [NotificationScreen.distanceOfTerm_of_mem h0 h1, atan2_sqrt_eq_arcsin a h0 h1] at h
        exact ⟨⟨h0, h1⟩, (Option.some.inj h).symm⟩
      · rw [NotificationScreen.distanceOfTerm_above_one (not_le.mp h1)] at h
        exact absurd h (by simp)
    · rw [NotificationScreen.distanceOfTerm_negative (not_le.mp h0)] at h
      exact absurd h (by simp)
  · rintro ⟨⟨h0, h1⟩, rfl⟩
    rw [NotificationScreen.distanceOfTerm_of_mem h0 h1, atan2_sqrt_eq_arcsin a h0 h1]

/-- In exact arithmetic the haversine term of the antipodal points (-58, -179) and (58, 1) is
1, the largest value on which line 44 of getDistance returns a number: the radicand `1 - a`
is 0 there, and a rounding of `a` upwards makes it negative. -/
theorem NotificationScreen.haversineTerm_antipodal :
    NotificationScreen.haversineTerm (-58) (-179) 58 1 = 1 := by
  have e1 : (((58 : ℝ) - (-58)) * Real.pi) / 180 / 2 = (58 * Real.pi) / 180 := by ring
  have e2 : (((1 : ℝ) - (-179)) * Real.pi) / 180 / 2 = Real.pi / 2 := by ring
  have e3 : ((-58 : ℝ) * Real.pi) / 180 = -((58 * Real.pi) / 180) := by ring
  show Real.sin ((((58 : ℝ) - (-58)) * Real.pi) / 180 / 2) ^ 2 +
    Real.cos (((-58 : ℝ) * Real.pi) / 180) * Real.cos (((58 : ℝ) * Real.pi) / 180) *
      Real.sin ((((1 : ℝ) - (-179)) * Real.pi) / 180 / 2) ^ 2 = 1
  rw [e1, e2, e3, Real.cos_neg, Real.sin_pi_div_two]
  have h := Real.sin_sq_add_cos_sq ((58 * Real.pi) / 180)
  nlinarith

/-- C10, at the failing input getDistance(-58, -179, 58, 1), two antipodal GeoPoints: the
doubles of lines 39-43 give `a` = 1 + 2^-52 there, the next double above 1 (printed
1.0000000000000002), and on this value line 44 returns NaN, which is not a value that is at
least 0. The value of the double `a` is taken from the evaluation of lines 39-43 in doubles,
which depends on `Math.sin` and `Math.cos` to the last bit; the theorem is the step from it
to the result. -/
theorem getDistance_nan_on_computed_term :
    NotificationScreen.distanceOfTerm (1 + 1 / 2 ^ 52) = none :=
  NotificationScreen.distanceOfTerm_above_one (by norm_num)

/-- C27, at the failing input getDistance(-58, -179, 58, 1), two antipodal GeoPoints: the
doubles of lines 39-43 give `a` = 1 + 2^-52 there (printed 1.0000000000000002), which is not
at most 1; the first square root is defined on it and the second, `Math.sqrt(1 - a)`, is NaN,
so the result is NaN and not a value that is at most π · 6371. The value of the double `a` is
taken from the evaluation of lines 39-43 in doubles; the theorem is the step from it to the
square roots. -/
theorem second_root_nan_on_computed_term :
    ¬ ((1 : ℝ) + 1 / 2 ^ 52 ≤ 1) ∧
    Math.sqrt (1 + 1 / 2 ^ 52) = some (Real.sqrt (1 + 1 / 2 ^ 52)) ∧
    Math.sqrt (1 - (1 + 1 / 2 ^ 52)) = none :=
  ⟨by norm_num, Math.sqrt_eq_some (by norm_num), Math.sqrt_eq_none (by norm_num)⟩

/-! ### Snapshots and the origin -/

/-- After the callback has received a list of snapshots and then one more, the notifications
are those of the last snapshot. -/
theorem NotificationScreen.deliver_notifications (earlier : List Snapshot) (last : Snapshot)
    (st : ScreenState) :
    (NotificationScreen.deliver (earlier ++ [last]) st).notifications =
      (snapshotList last).filter (fun n => n.status == some "active") := by
  unfold NotificationScreen.deliver
  rw [List.foldl_append]
  exact NotificationScreen.callback_notifications last _

/-- C25: the feed carries no state of earlier snapshots. After any sequence of snapshots
delivered to the subscription callback, the notifications are the records of the last snapshot
with status "active", each with its key; for two histories of earlier snapshots, in any order
and from any states, followed by the same last snapshot, the notifications and the feed of
every origin and user are the same, and they are those of the last snapshot alone. -/
theorem feed_depends_on_last_snapshot (earlier1 earlier2 : List Snapshot) (last : Snapshot)
    (st1 st2 : ScreenState) (userCoords : Option Coords) (uid : Option String) :
    (NotificationScreen.deliver (earlier1 ++ [last]) st1).notifications =
      (snapshotList last).filter (fun n => n.status == some "active") ∧
    (NotificationScreen.deliver (earlier1 ++ [last]) st1).notifications =
      (NotificationScreen.deliver (earlier2 ++ [last]) st2).notifications ∧
    NotificationScreen.nearbyNotifs userCoords uid
        (NotificationScreen.deliver (earlier1 ++ [last]) st1).notifications =
      NotificationScreen.nearbyNotifs userCoords uid
        (NotificationScreen.deliver (earlier2 ++ [last]) st2).notifications ∧
    NotificationScreen.nearbyNotifs userCoords uid
        (NotificationScreen.deliver (earlier1 ++ [last]) st1).notifications =
      NotificationScreen.nearbyNotifs userCoords uid
        (NotificationScreen.callback true last NotificationScreen.initialState).notifications := by
  rw [NotificationScreen.deliver_notifications, NotificationScreen.deliver_notifications,
    NotificationScreen.callback_notifications]
  exact ⟨rfl, rfl, rfl, rfl⟩

/-- C29: the origin of the request feed, for a signed-in user on the mounted screen that starts
without an origin. If the stored medicalInfo has a truthy latitude and longitude, the origin is
the parsed stored coordinates, also when a position of the device was obtained; otherwise the
origin is the position of the device, when the permission is granted and a position is
obtained; and the origin is absent exactly when neither is available. -/
theorem origin_choice (granted : Bool) (position : Option (ℝ × ℝ)) (uid : String)
    (infoRead : InfoRead) :
    (∀ info : MedicalInfo, infoRead = InfoRead.found info →
      info.latitude.truthy = true → info.longitude.truthy = true →
      (NotificationScreen.loadUserCoords true granted position (some uid) infoRead
        NotificationScreen.initialState).state.userCoords =
        some ⟨info.latitude.parseFloat, info.longitude.parseFloat⟩) ∧
    ((¬ ∃ info : MedicalInfo, infoRead = InfoRead.found info ∧
        info.latitude.truthy = true ∧ info.longitude.truthy = true) →
      (NotificationScreen.loadUserCoords true granted position (some uid) infoRead
        NotificationScreen.initialState).state.userCoords =
        if granted then position.map (fun loc => ⟨some loc.1, some loc.2⟩) else none) ∧
    ((NotificationScreen.loadUserCoords true granted position (some uid) infoRead
        NotificationScreen.initialState).state.userCoords = none ↔
      ((¬ ∃ info : MedicalInfo, infoRead = InfoRead.found info ∧
        info.latitude.truthy = true ∧ info.longitude.truthy = true) ∧
        (granted = false ∨ position = none))) := by
  have hgps : ∀ st : ScreenState, st.userCoords = none →
      (if granted then
        match position with
        | some loc => if true then { st with userCoords := some ⟨some loc.1, some loc.2⟩ } else st
        | none => st
      else st).userCoords =
      if granted then position.map (fun loc => ⟨some loc.1, some loc.2⟩) else none := by
    intro st hst
    cases granted <;> cases position <;> simp [hst]
  refine ⟨?_, ?_, ?_⟩
  · intro info hinfo hla hlo
    subst hinfo
    simp [NotificationScreen.loadUserCoords, hla, hlo]
  · intro hno
    cases infoRead with
    | failed message => exact hgps _ rfl
    | absent => exact hgps _ rfl
    | found info =>
      have hb : (info.latitude.truthy && info.longitude.truthy && true) = false := by
        cases hla : info.latitude.truthy <;> cases hlo : info.longitude.truthy <;> simp
        exact hno ⟨info, rfl, hla, hlo⟩
      simp only [NotificationScreen.loadUserCoords, hb]
      exact hgps _ rfl
  · cases infoRead with
    | failed message =>
      cases granted <;> cases position <;>
        simp [NotificationScreen.loadUserCoords, NotificationScreen.initialState]
    | absent =>
      cases granted <;> cases position <;>
        simp [NotificationScreen.loadUserCoords, NotificationScreen.initialState]
    | found info =>
      cases hla : info.latitude.truthy <;> cases hlo : info.longitude.truthy <;>
        cases granted <;> cases position <;>
        simp [NotificationScreen.loadUserCoords, NotificationScreen.initialState, hla, hlo]

/-- Witness of C29: the profile holds the coordinates (1, 2) and the device gives the position
(5, 6); the origin is (1, 2). -/
theorem origin_choice_witness :
    profileWithCoords.latitude.truthy = true ∧ profileWithCoords.longitude.truthy = true ∧
    (NotificationScreen.loadUserCoords true true (some (5, 6)) (some "u1")
        (InfoRead.found profileWithCoords) NotificationScreen.initialState).state.userCoords =
      some ⟨some 1, some 2⟩ ∧
    (NotificationScreen.loadUserCoords true true (some (5, 6)) (some "u1")
        (InfoRead.found exampleProfile) NotificationScreen.initialState).state.userCoords =
      some ⟨some 5, some 6⟩ :=
  ⟨rfl, rfl,
    (origin_choice true (some (5, 6)) "u1" (InfoRead.found profileWithCoords)).1
      profileWithCoords rfl rfl rfl,
    rfl⟩

/-! ### Names of white space -/

/-- C30, at the failing input: the form passes the check of the missing fields with a hospital
name of three spaces; the creation succeeds and the record written has the empty
hospitalName. -/
theorem create_blank_name_writes_empty :
    (formBlankName (some exampleProfile) 0 0).hospitalName ≠ "" ∧
    (RequestBloodScreen.handleSendNotification (formBlankName (some exampleProfile) 0 0)
        (some "u1") "k1" 5 none []).alert.title = "Success" ∧
    (RequestBloodScreen.handleSendNotification (formBlankName (some exampleProfile) 0 0)
        (some "u1") "k1" 5 none []).store.map (fun e => (e.1, e.2.hospitalName)) =
      [("k1", some "")] := by
  rw [RequestBloodScreen.handleSendNotification_ok _ exampleProfile "u1" "k1" 5 _
    ⟨by decide, by decide, by simp [formBlankName, filledForm],
      by simp [formBlankName, filledForm]⟩ rfl]
  refine ⟨by decide, rfl, ?_⟩
  have h : trim "   " = "" := by decide
  simp [storeSet, formBlankName, h]

/-! ### Sequences of lifecycle steps -/

/-- The store that handleSendNotification leaves: the store as it was, or the store with an
active record without dismissal fields set under the key. -/
theorem RequestBloodScreen.handleSendNotification_store (form : RequestBloodScreen.FormState)
    (currentUser : Option String) (key : String) (now : Nat) (setError : Option String)
    (store : Store) :
    (RequestBloodScreen.handleSendNotification form currentUser key now setError store).store =
        store ∨
      ∃ r : Request,
        (RequestBloodScreen.handleSendNotification form currentUser key now setError
          store).store = storeSet store key r ∧
        r.status = some "active" ∧ r.dismissedAt = none ∧ r.dismissedBy = none := by
  unfold RequestBloodScreen.handleSendNotification
  split_ifs
  · exact Or.inl rfl
  · cases form.userInfo with
    | none => exact Or.inl rfl
    | some userInfo =>
      cases currentUser with
      | none => exact Or.inl rfl
      | some uid =>
        cases setError with
        | some message => exact Or.inl rfl
        | none => exact Or.inr ⟨_, rfl, rfl, rfl, rfl⟩

/-- The store that dismissNotification leaves: the store as it was, or the store updated with
the dismissal fields under the id. -/
theorem NotificationScreen.dismissNotification_store (notificationId : String)
    (currentUser : Option String) (now : Nat) (updateError : Option String) (store : Store) :
    (NotificationScreen.dismissNotification notificationId currentUser now updateError
        store).store = store ∨
      ∃ uid : String,
        (NotificationScreen.dismissNotification notificationId currentUser now updateError
          store).store =
          storeUpdate store notificationId (NotificationScreen.dismissedFields now uid) := by
  cases currentUser with
  | none => exact Or.inl rfl
  | some uid =>
    cases updateError with
    | some message => exact Or.inl rfl
    | none => exact Or.inr ⟨uid, rfl⟩

/-- The entries of a store after a write: the entries as they were, or the record written. -/
theorem mem_storeSet (store : Store) (key : String) (r : Request) (e : String × Request)
    (he : e ∈ storeSet store key r) : e ∈ store ∨ e.2 = r := by
  unfold storeSet at he
  split_ifs at he
  · rw [List.mem_map] at he
    obtain ⟨e0, he0, rfl⟩ := he
    split_ifs
    · exact Or.inr rfl
    · exact Or.inl he0
  · rw [List.mem_append, List.mem_singleton] at he
    rcases he with he | rfl
    · exact Or.inl he
    · exact Or.inr rfl

/-- The entries of a store after an update under a key: the entries under the other keys as
they were, and under the key patched records only. -/
theorem mem_storeUpdate (store : Store) (key : String) (patch : Request → Request)
    (e : String × Request) (he : e ∈ storeUpdate store key patch) :
    (e ∈ store ∧ e.1 ≠ key) ∨ (e.1 = key ∧ ∃ r0 : Request, e.2 = patch r0) := by
  unfold storeUpdate at he
  split_ifs at he with hany
  · rw [List.mem_map] at he
    obtain ⟨e0, he0, rfl⟩ := he
    by_cases hk : e0.1 = key
    · have h1 : (e0.1 == key) = true := by simpa using hk
      rw [if_pos h1]
      exact Or.inr ⟨hk, e0.2, rfl⟩
    · have h1 : ¬ (e0.1 == key) = true := by simpa using hk
      rw [if_neg h1]
      exact Or.inl ⟨he0, hk⟩
  · rw [List.mem_append, List.mem_singleton] at he
    rcases he with he | rfl
    · refine Or.inl ⟨he, ?_⟩
      have h := hany
      rw [Bool.not_eq_true, List.any_eq_false] at h
      simpa using h e he
    · exact Or.inr ⟨rfl, emptyRequest, rfl⟩

/-- An update under a key leaves the records under the other keys. -/
theorem lookup_storeUpdate_other (store : Store) (key k : String) (patch : Request → Request)
    (hk : k ≠ key) : (storeUpdate store key patch).lookup k = store.lookup k := by
  unfold storeUpdate
  split_ifs
  · exact lookup_map_patch_other store key k patch hk
  · have h1 : (k == key) = false := by simpa using hk
    rw [List.lookup_append]
    simp only [List.lookup_cons, h1, List.lookup_nil, Option.or_none]

/-- A record that the lookup finds is an entry of the store. -/
theorem mem_of_lookup (store : Store) (k : String) (r : Request)
    (h : store.lookup k = some r) : (k, r) ∈ store := by
  induction store with
  | nil => exact Option.noConfusion h
  | cons e es ih =>
    obtain ⟨k2, b⟩ := e
    rw [List.lookup_cons] at h
    cases hb : (k == k2) with
    | true =>
      rw [hb] at h
      have hk : k = k2 := by simpa using hb
      have hr : b = r := by simpa using h
      rw [hk, hr]
      exact List.mem_cons_self _ _
    | false =>
      rw [hb] at h
      exact List.mem_cons_of_mem _ (ih h)

/-- A step leaves every existing record under its key, as it was or with the dismissal fields
written. -/
theorem step_lookup (s t : Store) (hstep : Step s t) (k : String) (r : Request)
    (hr : s.lookup k = some r) :
    ∃ r2 : Request, t.lookup k = some r2 ∧
      (r2 = r ∨ ∃ (now : Nat) (uid : String),
        r2 = NotificationScreen.dismissedFields now uid r) := by
  cases hstep with
  | create form currentUser key now setError hfresh =>
    rcases RequestBloodScreen.handleSendNotification_store form currentUser key now setError s
      with h | ⟨r0, h, _⟩
    · rw [h]
      exact ⟨r, hr, Or.inl rfl⟩
    · rw [h, storeSet_fresh s key r0 hfresh, List.lookup_append, hr]
      exact ⟨r, rfl, Or.inl rfl⟩
  | dismiss notificationId currentUser now updateError =>
    rcases NotificationScreen.dismissNotification_store notificationId currentUser now
      updateError s with h | ⟨uid, h⟩
    · rw [h]
      exact ⟨r, hr, Or.inl rfl⟩
    · rw [h]
      by_cases hk : k = notificationId
      · subst hk
        exact ⟨_, lookup_storeUpdate_self s k _ r hr, Or.inr ⟨now, uid, rfl⟩⟩
      · rw [lookup_storeUpdate_other s notificationId k _ hk]
        exact ⟨r, hr, Or.inl rfl⟩

/-- A step keeps a property of the records that holds of every created record and of every
record with the dismissal fields written. -/
theorem step_preserves (P : Request → Prop)
    (hcreate : ∀ r : Request, r.status = some "active" → r.dismissedAt = none →
      r.dismissedBy = none → P r)
    (hdismiss : ∀ (now : Nat) (uid : String) (r : Request),
      P (NotificationScreen.dismissedFields now uid r))
    (s t : Store) (hstep : Step s t) (hs : ∀ e ∈ s, P e.2) : ∀ e ∈ t, P e.2 := by
  intro e he
  cases hstep with
  | create form currentUser key now setError hfresh =>
    rcases RequestBloodScreen.handleSendNotification_store form currentUser key now setError s
      with h | ⟨r0, h, h1, h2, h3⟩
    · rw [h] at he
      exact hs e he
    · rw [h] at he
      rcases mem_storeSet s key r0 e he with h4 | h4
      · exact hs e h4
      · rw [h4]
        exact hcreate r0 h1 h2 h3
  | dismiss notificationId currentUser now updateError =>
    rcases NotificationScreen.dismissNotification_store notificationId currentUser now
      updateError s with h | ⟨uid, h⟩
    · rw [h] at he
      exact hs e he
    · rw [h] at he
      rcases mem_storeUpdate s notificationId _ e he with h4 | ⟨_, r0, h4⟩
      · exact hs e h4.1
      · rw [h4]
        exact hdismiss now uid r0

/-- A sequence of steps keeps such a property. -/
theorem reachable_preserves (P : Request → Prop)
    (hcreate : ∀ r : Request, r.status = some "active" → r.dismissedAt = none →
      r.dismissedBy = none → P r)
    (hdismiss : ∀ (now : Nat) (uid : String) (r : Request),
      P (NotificationScreen.dismissedFields now uid r))
    (init s : Store) (hreach : Reachable init s) (hinit : ∀ e ∈ init, P e.2) :
    ∀ e ∈ s, P e.2 := by
  induction hreach with
  | start => exact hinit
  | step _ ht ih => exact step_preserves P hcreate hdismiss _ _ ht ih

/-- A sequence of steps leaves every existing record under its key, with the fields other than
the dismissal fields as they were, and dismissed if it was dismissed. -/
theorem reachable_lookup (s u : Store) (hreach : Reachable s u) (k : String) (r : Request)
    (hr : s.lookup k = some r) :
    ∃ r2 : Request, u.lookup k = some r2 ∧ sameExceptDismissal r r2 ∧
      (r.status = some "dismissed" → r2.status = some "dismissed") := by
  induction hreach with
  | start => exact ⟨r, hr, ⟨rfl, rfl, rfl, rfl, rfl, rfl, rfl, rfl, rfl, rfl, rfl, rfl⟩, id⟩
  | step _ ht ih =>
    obtain ⟨r1, h1, hsame, hdis⟩ := ih
    obtain ⟨r2, h2, h3⟩ := step_lookup _ _ ht k r1 h1
    rcases h3 with rfl | ⟨now, uid, rfl⟩
    · exact ⟨r2, h2, hsame, hdis⟩
    · exact ⟨_, h2, hsame, fun _ => rfl⟩

/-- C21: status never reverses. In every store `s` that a sequence of create and dismiss steps
reaches from an initial store whose records have the status "active" or "dismissed", a record
with status "dismissed" has status "dismissed" in every store reached later, and the only
change of status that a step makes to an existing record is from "active" to "dismissed". -/
theorem status_never_reverses (init s t u : Store)
    (hwf : ∀ e ∈ init, e.2.status = some "active" ∨ e.2.status = some "dismissed")
    (hs : Reachable init s) (ht : Step s t) (hu : Reachable s u) :
    (∀ (k : String) (r : Request), s.lookup k = some r → r.status = some "dismissed" →
      ∃ r2 : Request, u.lookup k = some r2 ∧ r2.status = some "dismissed") ∧
    (∀ (k : String) (r r2 : Request), s.lookup k = some r → t.lookup k = some r2 →
      r2.status ≠ r.status → r.status = some "active" ∧ r2.status = some "dismissed") := by
  constructor
  · intro k r hr hd
    obtain ⟨r2, h2, _, h3⟩ := reachable_lookup s u hu k r hr
    exact ⟨r2, h2, h3 hd⟩
  · intro k r r2 hr hr2 hne
    have hwfs := reachable_preserves
      (fun r => r.status = some "active" ∨ r.status = some "dismissed")
      (fun r h _ _ => Or.inl h) (fun _ _ _ => Or.inr rfl) init s hs hwf
    obtain ⟨r3, h3, h4⟩ := step_lookup s t ht k r hr
    rw [hr2] at h3
    have h5 : r2 = r3 := by simpa using h3
    subst h5
    rcases h4 with rfl | ⟨now, uid, rfl⟩
    · exact absurd rfl hne
    · refine ⟨?_, rfl⟩
      rcases hwfs (k, r) (mem_of_lookup s k r hr) with h6 | h6
      · exact h6
      · exact absurd h6.symm hne

/-- Witness of C21: on the store that holds the active request "k0", the user "u1" dismisses
"k0" at the clock reading 7. -/
theorem status_never_reverses_witness :
    (∀ e ∈ storeOneActive, e.2.status = some "active" ∨ e.2.status = some "dismissed") ∧
    Step storeOneActive
      (NotificationScreen.dismissNotification "k0" (some "u1") 7 none storeOneActive).store ∧
    (∀ (k : String) (r : Request), storeOneActive.lookup k = some r →
      r.status = some "dismissed" →
      ∃ r2 : Request,
        (NotificationScreen.dismissNotification "k0" (some "u1") 7 none
          storeOneActive).store.lookup k = some r2 ∧ r2.status = some "dismissed") ∧
    (∀ (k : String) (r r2 : Request), storeOneActive.lookup k = some r →
      (NotificationScreen.dismissNotification "k0" (some "u1") 7 none
        storeOneActive).store.lookup k = some r2 →
      r2.status ≠ r.status → r.status = some "active" ∧ r2.status = some "dismissed") := by
  have hwf : ∀ e ∈ storeOneActive,
      e.2.status = some "active" ∨ e.2.status = some "dismissed" := by
    intro e he
    rw [storeOneActive, List.mem_singleton] at he
    rw [he]
    exact Or.inl rfl
  have ht := Step.dismiss storeOneActive "k0" (some "u1") 7 none
  exact ⟨hwf, ht, status_never_reverses storeOneActive storeOneActive _ _ hwf Reachable.start ht
    (Reachable.step Reachable.start ht)⟩

/-- C22: in every store that a sequence of create and dismiss steps reaches from the empty
store, each record has dismissedAt set exactly when its status is "dismissed", and dismissedBy
set exactly when its status is "dismissed". -/
theorem dismissal_fields_iff_dismissed (s : Store) (hs : Reachable [] s) :
    ∀ e ∈ s, (e.2.status = some "dismissed" ↔ e.2.dismissedAt.isSome = true) ∧
      (e.2.status = some "dismissed" ↔ e.2.dismissedBy.isSome = true) := by
  have hinv := reachable_preserves
    (fun r => (r.status = some "active" ∧ r.dismissedAt = none ∧ r.dismissedBy = none) ∨
      (r.status = some "dismissed" ∧ r.dismissedAt.isSome = true ∧
        r.dismissedBy.isSome = true))
    (fun r h1 h2 h3 => Or.inl ⟨h1, h2, h3⟩) (fun _ _ _ => Or.inr ⟨rfl, rfl, rfl⟩) [] s hs
    (fun e he => absurd he (List.not_mem_nil e))
  intro e he
  rcases hinv e he with ⟨h1, h2, h3⟩ | ⟨h1, h2, h3⟩
  · rw [h1, h2, h3]
    exact ⟨⟨fun h => absurd h (by decide), fun h => absurd h (by decide)⟩,
      ⟨fun h => absurd h (by decide), fun h => absurd h (by decide)⟩⟩
  · exact ⟨⟨fun _ => h2, fun _ => h1⟩, ⟨fun _ => h3, fun _ => h1⟩⟩

/-- The store after a creation and a dismissal holds one record, dismissed at 7 by "u2". -/
theorem storeCreatedDismissed_fields :
    storeCreatedDismissed.map (fun e => (e.1, e.2.status, e.2.dismissedAt, e.2.dismissedBy)) =
      [("k1", some "dismissed", some 7, some "u2")] := by
  decide

/-- Witness of C22: the store after the user "u1" has created the request "k1" on the empty
store and the user "u2" has dismissed it. -/
theorem dismissal_fields_iff_dismissed_witness :
    Reachable [] storeCreatedDismissed ∧
    storeCreatedDismissed.map (fun e => (e.1, e.2.status, e.2.dismissedAt, e.2.dismissedBy)) =
      [("k1", some "dismissed", some 7, some "u2")] ∧
    ∀ e ∈ storeCreatedDismissed,
      (e.2.status = some "dismissed" ↔ e.2.dismissedAt.isSome = true) ∧
      (e.2.status = some "dismissed" ↔ e.2.dismissedBy.isSome = true) := by
  have h : Reachable [] storeCreatedDismissed :=
    Reachable.step
      (Reachable.step Reachable.start
        (Step.create [] (filledForm (some exampleProfile) 0 0) (some "u1") "k1" 5 none
          (fun e he => absurd he (List.not_mem_nil e))))
      (Step.dismiss _ "k1" (some "u2") 7 none)
  exact ⟨h, storeCreatedDismissed_fields, dismissal_fields_iff_dismissed _ h⟩

/-- An update under a key that the store holds keeps the keys and their order. -/
theorem keys_storeUpdate (store : Store) (key : String) (patch : Request → Request)
    (r : Request) (h : store.lookup key = some r) :
    (storeUpdate store key patch).map Prod.fst = store.map Prod.fst := by
  unfold storeUpdate
  have hany : store.any (fun e => e.1 == key) = true := by
    cases hb : store.any (fun e => e.1 == key) with
    | true => rfl
    | false =>
      rw [any_key_eq_false_iff] at hb
      rw [hb] at h
      exact Option.noConfusion h
  rw [if_pos hany, List.map_map]
  apply List.map_congr_left
  intro e _
  show (if (e.1 == key) = true then (e.1, patch e.2) else e).1 = e.1
  split_ifs <;> rfl

/-- C23: dismissNotification changes only the status, dismissedAt and dismissedBy of the
record under the id. For every store that holds a record under the id and every call, failed
or not, the record is still under the id with its requesterCoords, notificationId and every
other field unchanged, the records under the other keys are unchanged, and the keys of the
store and their order are unchanged; and in every store that a sequence of create and dismiss
steps reaches from the store the record is still under the id with requesterCoords,
notificationId and the other fields as they were. -/
theorem dismiss_changes_only_dismissal_fields (store u : Store) (notificationId : String)
    (currentUser : Option String) (now : Nat) (updateError : Option String) (r : Request)
    (hr : store.lookup notificationId = some r) (hu : Reachable store u) :
    (∃ r2 : Request,
      (NotificationScreen.dismissNotification notificationId currentUser now updateError
        store).store.lookup notificationId = some r2 ∧ sameExceptDismissal r r2) ∧
    (∀ k : String, k ≠ notificationId →
      (NotificationScreen.dismissNotification notificationId currentUser now updateError
        store).store.lookup k = store.lookup k) ∧
    (NotificationScreen.dismissNotification notificationId currentUser now updateError
        store).store.map Prod.fst = store.map Prod.fst ∧
    (∃ r3 : Request, u.lookup notificationId = some r3 ∧
      r3.requesterCoords = r.requesterCoords ∧ r3.notificationId = r.notificationId ∧
      sameExceptDismissal r r3) := by
  have hstep := Step.dismiss store notificationId currentUser now updateError
  obtain ⟨r2, h2, hsame, _⟩ :=
    reachable_lookup store _ (Reachable.step Reachable.start hstep) notificationId r hr
  obtain ⟨r3, h3, hsame3, _⟩ := reachable_lookup store u hu notificationId r hr
  refine ⟨⟨r2, h2, hsame⟩, ?_, ?_,
    ⟨r3, h3, hsame3.2.2.2.2.2.2.2.2.2.1, hsame3.2.2.2.2.2.2.2.2.2.2.2, hsame3⟩⟩
  · intro k hk
    rcases NotificationScreen.dismissNotification_store notificationId currentUser now
      updateError store with h | ⟨uid, h⟩
    · rw [h]
    · rw [h, lookup_storeUpdate_other store notificationId k _ hk]
  · rcases NotificationScreen.dismissNotification_store notificationId currentUser now
      updateError store with h | ⟨uid, h⟩
    · rw [h]
    · rw [h, keys_storeUpdate store notificationId _ r hr]

/-- Witness of C23: the user "u1" dismisses the request "k0" of the store that holds it, at
the clock reading 7. -/
theorem dismiss_changes_only_dismissal_fields_witness :
    storeOneActive.lookup "k0" = some (activeRequest "u2" 0 0) ∧
    (∃ r2 : Request,
      (NotificationScreen.dismissNotification "k0" (some "u1") 7 none
        storeOneActive).store.lookup "k0" = some r2 ∧
      sameExceptDismissal (activeRequest "u2" 0 0) r2) ∧
    (∀ k : String, k ≠ "k0" →
      (NotificationScreen.dismissNotification "k0" (some "u1") 7 none
        storeOneActive).store.lookup k = storeOneActive.lookup k) ∧
    (NotificationScreen.dismissNotification "k0" (some "u1") 7 none
        storeOneActive).store.map Prod.fst = storeOneActive.map Prod.fst ∧
    (∃ r3 : Request,
      (NotificationScreen.dismissNotification "k0" (some "u1") 7 none
        storeOneActive).store.lookup "k0" = some r3 ∧
      r3.requesterCoords = (activeRequest "u2" 0 0).requesterCoords ∧
      r3.notificationId = (activeRequest "u2" 0 0).notificationId ∧
      sameExceptDismissal (activeRequest "u2" 0 0) r3) :=
  ⟨storeOneActive_k0,
    dismiss_changes_only_dismissal_fields storeOneActive _ "k0" (some "u1") 7 none _
      storeOneActive_k0
      (Reachable.step Reachable.start (Step.dismiss storeOneActive "k0" (some "u1") 7 none))⟩

/-- The notifications that the snapshot of a store lists. -/
theorem snapshotList_storeSnapshot (store : Store) :
    snapshotList (storeSnapshot store) =
      store.map (fun e => { toRequest := e.2, id := e.1 }) := by
  cases store with
  | nil => rfl
  | cons e es => rfl

/-- C24: after dismissNotification has succeeded for an id, the feed computed from the
snapshot of the resulting store holds no item with that id, for every origin and every current
user. -/
theorem dismissed_not_in_feed (store : Store) (notificationId : String)
    (currentUser : Option String) (now : Nat) (updateError : Option String)
    (userCoords : Option Coords) (uid : Option String) (st : ScreenState) (item : FeedItem)
    (hsucc : (NotificationScreen.dismissNotification notificationId currentUser now updateError
      store).alert.title = "Success")
    (hitem : item ∈ NotificationScreen.nearbyNotifs userCoords uid
      (NotificationScreen.callback true
        (storeSnapshot (NotificationScreen.dismissNotification notificationId currentUser now
          updateError store).store) st).notifications) :
    item.id ≠ notificationId := by
  cases currentUser with
  | none => exact absurd hsucc.symm (fun h => error_ne_success h.symm)
  | some acting =>
    cases updateError with
    | some message => exact absurd hsucc.symm (fun h => error_ne_success h.symm)
    | none =>
      rw [NotificationScreen.dismissNotification_ok] at hitem
      cases userCoords with
      | none => simp [NotificationScreen.nearbyNotifs] at hitem
      | some uc =>
        obtain ⟨n, hmem, hn⟩ := (NotificationScreen.mem_nearbyNotifs _ _ _ _).mp hitem
        obtain ⟨hto, _⟩ := NotificationScreen.mem_reducer _ _ _ _ hn
        rw [NotificationScreen.callback_notifications, List.mem_filter,
          snapshotList_storeSnapshot, List.mem_map] at hmem
        obtain ⟨⟨e, he, hen⟩, hact⟩ := hmem
        intro hid
        have hkey : e.1 = notificationId := by
          have h1 : n.id = e.1 := by rw [← hen]
          rw [← h1, ← hto]
          exact hid
        rcases mem_storeUpdate store notificationId _ e he with h | ⟨_, r0, h⟩
        · exact h.2 hkey
        · have h2 : n.status = some "dismissed" := by
            rw [← hen]
            show e.2.status = some "dismissed"
            rw [h]
            rfl
          rw [h2] at hact
          exact absurd hact (by decide)

/-- Witness of C24: the user "u1" at the origin of the equator dismisses the request "k0" of
"u2" at the origin; the feed over the snapshot of the resulting store is empty, so that it
holds no item with the id "k0". -/
theorem dismissed_not_in_feed_witness :
    (NotificationScreen.dismissNotification "k0" (some "u1") 7 none
      storeOneActive).alert.title = "Success" ∧
    ∀ item ∈ NotificationScreen.nearbyNotifs (some ⟨some 0, some 0⟩) (some "u1")
      (NotificationScreen.callback true
        (storeSnapshot (NotificationScreen.dismissNotification "k0" (some "u1") 7 none
          storeOneActive).store) NotificationScreen.initialState).notifications,
      item.id ≠ "k0" :=
  ⟨rfl, fun item hitem =>
    dismissed_not_in_feed storeOneActive "k0" (some "u1") 7 none (some ⟨some 0, some 0⟩)
      (some "u1") NotificationScreen.initialState item rfl hitem⟩

/-! ### The hospital searches -/

/-- The comparison of the sort of the web search is transitive. -/
theorem web_le_trans (a b c : HospitalKm)
    (hab : decide (a.distanceKm - b.distanceKm ≤ 0) = true)
    (hbc : decide (b.distanceKm - c.distanceKm ≤ 0) = true) :
    decide (a.distanceKm - c.distanceKm ≤ 0) = true := by
  rw [decide_eq_true_iff] at hab hbc ⊢
  linarith

/-- The comparison of the sort of the web search is total. -/
theorem web_le_total (a b : HospitalKm) :
    (decide (a.distanceKm - b.distanceKm ≤ 0) || decide (b.distanceKm - a.distanceKm ≤ 0)) =
      true := by
  rw [Bool.or_eq_true, decide_eq_true_iff, decide_eq_true_iff]
  rcases le_total a.distanceKm b.distanceKm with h | h
  · exact Or.inl (by linarith)
  · exact Or.inr (by linarith)

/-- A stable sort keeps the order of the elements of a class whose elements the comparison
does not separate. -/
theorem mergeSort_filter_eq {α : Type} (le : α → α → Bool)
    (htrans : ∀ a b c : α, le a b = true → le b c = true → le a c = true)
    (htotal : ∀ a b : α, (le a b || le b a) = true)
    (q : α → Bool) (hq : ∀ a b : α, q a = true → q b = true → le a b = true) (l : List α) :
    (l.mergeSort le).filter q = l.filter q := by
  have hc : (l.filter q).Pairwise (fun a b => le a b = true) := by
    apply List.pairwise_of_forall_mem_list
    intro a ha b hb
    exact hq a b (List.mem_filter.mp ha).2 (List.mem_filter.mp hb).2
  have hsub : (l.filter q).Sublist (l.mergeSort le) :=
    List.sublist_mergeSort htrans htotal hc (List.filter_sublist l)
  have hsub2 : ((l.filter q).filter q).Sublist ((l.mergeSort le).filter q) := hsub.filter q
  have hidem : (l.filter q).filter q = l.filter q := by
    rw [List.filter_filter]
    simp
  rw [hidem] at hsub2
  have hlen : (l.filter q).length = ((l.mergeSort le).filter q).length :=
    (((List.mergeSort_perm l le).filter q).length_eq).symm
  exact (hsub2.eq_of_length hlen).symm

/-- The list that the web search sorts: the hospitals of the directory within 20 km, in the
order of the directory, each with its distance. -/
theorem DonateBloodScreenWeb.nearby_eq (lat lon : ℝ) (hs : List Hospital) :
    DonateBloodScreenWeb.nearby lat lon hs =
      ((hs.filter (fun h =>
          decide (DonateBloodScreenWeb.getDistance lat lon h.latitude h.longitude ≤ 20))).map
        (fun h => ({ toHospital := h,
                     distanceKm := DonateBloodScreenWeb.getDistance lat lon h.latitude
                       h.longitude } : HospitalKm))).mergeSort
        (fun a b => decide (a.distanceKm - b.distanceKm ≤ 0)) := by
  unfold DonateBloodScreenWeb.nearby
  rw [List.filter_map]
  rfl

/-- C26: the web hospital search returns the hospitals of the directory within 20 km, each
with distanceKm equal to getDistance from the user to the hospital (the result is a
permutation of these annotated hospitals), sorted ascending by distanceKm, with the hospitals
at an equal distance in their order in the directory. -/
theorem web_search_sorted_stable (lat lon : ℝ) (hs : List Hospital) :
    (DonateBloodScreenWeb.nearby lat lon hs).Perm
      ((hs.filter (fun h =>
          decide (DonateBloodScreenWeb.getDistance lat lon h.latitude h.longitude ≤ 20))).map
        (fun h => ({ toHospital := h,
                     distanceKm := DonateBloodScreenWeb.getDistance lat lon h.latitude
                       h.longitude } : HospitalKm))) ∧
    (DonateBloodScreenWeb.nearby lat lon hs).Pairwise
      (fun a b => a.distanceKm ≤ b.distanceKm) ∧
    ∀ d : ℝ,
      (DonateBloodScreenWeb.nearby lat lon hs).filter (fun h => decide (h.distanceKm = d)) =
        (hs.filter (fun h =>
          decide (DonateBloodScreenWeb.getDistance lat lon h.latitude h.longitude ≤ 20 ∧
            DonateBloodScreenWeb.getDistance lat lon h.latitude h.longitude = d))).map
          (fun h => ({ toHospital := h,
                       distanceKm := DonateBloodScreenWeb.getDistance lat lon h.latitude
                         h.longitude } : HospitalKm)) := by
  rw [DonateBloodScreenWeb.nearby_eq]
  refine ⟨List.mergeSort_perm _ _, ?_, ?_⟩
  · have h := List.sorted_mergeSort web_le_trans web_le_total
      ((hs.filter (fun h =>
          decide (DonateBloodScreenWeb.getDistance lat lon h.latitude h.longitude ≤ 20))).map
        (fun h => ({ toHospital := h,
                     distanceKm := DonateBloodScreenWeb.getDistance lat lon h.latitude
                       h.longitude } : HospitalKm)))
    refine h.imp ?_
    intro a b hab
    rw [decide_eq_true_iff] at hab
    linarith
  · intro d
    rw [mergeSort_filter_eq _ web_le_trans web_le_total
      (fun h => decide (h.distanceKm = d))
      (fun a b ha hb => by
        rw [decide_eq_true_iff] at ha hb ⊢
        rw [ha, hb]
        linarith),
      List.filter_map, List.filter_filter]
    congr 1
    apply List.filter_congr
    intro h _
    simp only [Function.comp, Bool.decide_and, Bool.and_comm]

/-- C28: for the same position of the user and the same directory the native and the web
hospital search select the same hospitals. The native result is the directory filtered by a
distance of at most 20, in the order of the directory; the hospitals of the web result are a
permutation of it, the native list sorted by distance with a stable sort. -/
theorem native_web_same_hospitals (lat lon : ℝ) (hs : List Hospital) :
    DonateBloodScreen.nearby lat lon hs =
      hs.filter (fun h =>
        decide (DonateBloodScreen.getDistance lat lon h.latitude h.longitude ≤ 20)) ∧
    ((DonateBloodScreenWeb.nearby lat lon hs).map HospitalKm.toHospital).Perm
      (DonateBloodScreen.nearby lat lon hs) ∧
    (DonateBloodScreenWeb.nearby lat lon hs).map HospitalKm.toHospital =
      (DonateBloodScreen.nearby lat lon hs).mergeSort (fun a b =>
        decide (DonateBloodScreen.getDistance lat lon a.latitude a.longitude -
          DonateBloodScreen.getDistance lat lon b.latitude b.longitude ≤ 0)) := by
  have hnative : DonateBloodScreen.nearby lat lon hs =
      hs.filter (fun h =>
        decide (DonateBloodScreen.getDistance lat lon h.latitude h.longitude ≤ 20)) := rfl
  have hfilter : hs.filter (fun h =>
        decide (DonateBloodScreenWeb.getDistance lat lon h.latitude h.longitude ≤ 20)) =
      DonateBloodScreen.nearby lat lon hs := by
    rw [hnative]
    apply List.filter_congr
    intro h _
    rw [DonateBloodScreenWeb.getDistance_web_eq, DonateBloodScreen.getDistance_native_eq]
  have hsort : (DonateBloodScreenWeb.nearby lat lon hs).map HospitalKm.toHospital =
      (DonateBloodScreen.nearby lat lon hs).mergeSort (fun a b =>
        decide (DonateBloodScreen.getDistance lat lon a.latitude a.longitude -
          DonateBloodScreen.getDistance lat lon b.latitude b.longitude ≤ 0)) := by
    rw [DonateBloodScreenWeb.nearby_eq, hfilter]
    rw [List.map_mergeSort (s := fun a b : Hospital =>
        decide (DonateBloodScreen.getDistance lat lon a.latitude a.longitude -
          DonateBloodScreen.getDistance lat lon b.latitude b.longitude ≤ 0))]
    · rw [List.map_map]
      congr 1
      exact List.map_id _
    · intro a ha b hb
      rw [List.mem_map] at ha hb
      obtain ⟨a0, _, rfl⟩ := ha
      obtain ⟨b0, _, rfl⟩ := hb
      show decide (DonateBloodScreenWeb.getDistance lat lon a0.latitude a0.longitude -
          DonateBloodScreenWeb.getDistance lat lon b0.latitude b0.longitude ≤ 0) = _
      rw [DonateBloodScreenWeb.getDistance_web_eq, DonateBloodScreenWeb.getDistance_web_eq,
        DonateBloodScreen.getDistance_native_eq, DonateBloodScreen.getDistance_native_eq]
  refine ⟨hnative, ?_, hsort⟩
  rw [hsort]
  exact List.mergeSort_perm _ _

end SynergyBlood
